import Mathlib

/-!
# jstatus: a shallow embedding of `jstatus.c`

The program samples battery, temperature, CPU ticks, mixer volume and the
clock once per second and writes one line of text to a `dzen2` pipe; it
pops up messages through `xosd` on some conditions.

Conventions of the embedding

* A C `int` is a Lean `Int` in `[INT_MIN, INT_MAX]`.  Every `+`, `-`, `*`
  of the source is followed by `wrapInt` (two's complement wrap-around, what
  the compiled program does when a signed operation overflows), and a
  conversion from `long` to `int` is `wrapInt` as well.
* `/` by a variable is `cdiv`: truncation toward zero, and a machine fault
  (`Halt.fault`) on a zero divisor or on `INT_MIN / -1`.  `/` by the constant
  10 cannot trap and is `Int.tdiv` directly.
* `static` locals become explicit state that each function receives and
  returns.
* `sysctlbyname` results are never checked by the source, so a function
  takes as input the value its variable holds after the call.
* `fprintf (fp, ...)` becomes the text the function appends to the line;
  `show_message` becomes the list of messages displayed, in order.
-/

namespace JStatus

/-! ## C integers -/

/-- Least value of a 32-bit `int`. -/
def INT_MIN : Int := -2147483648

/-- Greatest value of a 32-bit `int`. -/
def INT_MAX : Int := 2147483647

/-- The `int` that the machine stores for the exact integer `x`:
    reduction modulo 2^32 into `[INT_MIN, INT_MAX]`. -/
def wrapInt (x : Int) : Int := (x + 2147483648) % 4294967296 - 2147483648

/-- How one pass of the loop can stop the process. -/
inductive Halt where
  /-- integer division trap (zero divisor, or `INT_MIN / -1`) -/
  | fault : Halt
  /-- the call `err (status, msg)` of the C library -/
  | exit (status : Int) (msg : String) : Halt
deriving DecidableEq, Repr

/-- C division of two `int`s: truncates toward zero; traps when the divisor
    is zero or the quotient is not representable. -/
def cdiv (a b : Int) : Except Halt Int :=
  if b = 0 then Except.error Halt.fault
  else if a = INT_MIN ∧ b = -1 then Except.error Halt.fault
  else Except.ok (Int.tdiv a b)

/-- Equality of outcomes is decidable, so closed runs can be evaluated. -/
instance instDecidableEqExcept {ε α : Type} [DecidableEq ε] [DecidableEq α] :
    DecidableEq (Except ε α) := fun x y =>
  match x, y with
  | Except.ok a, Except.ok b =>
    if h : a = b then isTrue (by rw [h]) else isFalse (fun h2 => h (Except.ok.inj h2))
  | Except.error a, Except.error b =>
    if h : a = b then isTrue (by rw [h]) else isFalse (fun h2 => h (Except.error.inj h2))
  | Except.ok _, Except.error _ => isFalse (fun h => Except.noConfusion h)
  | Except.error _, Except.ok _ => isFalse (fun h => Except.noConfusion h)

/-! ## Text output -/

/-- Directory of the icons (`XBM_PATH`). -/
def XBM_PATH : String := "/usr/home/jlaffaye/.dzen/"

def ICON_POWER_AC : String := XBM_PATH ++ "power-ac.xbm"

def ICON_POWER_BAT : String := XBM_PATH ++ "power-bat2.xbm"

def ICON_VOLUME_HIGH : String := XBM_PATH ++ "vol-hi.xbm"

def ICON_VOLUME_MUTE : String := XBM_PATH ++ "vol-mute.xbm"

def ICON_TEMP : String := XBM_PATH ++ "temp.xbm"

def ICON_LOAD : String := XBM_PATH ++ "load.xbm"

def DOT : String := "^p(5)^c(5)^p(5)"

/-- Conversion `%d` of `printf`: decimal digits, a leading `-` when negative. -/
def fmt_d (n : Int) : String := toString n

/-- Conversion `%02d` of `printf`: as `%d`, padded on the left with `0` to a
    width of two characters (only the values 0..9 are shorter than that). -/
def fmt_02d (n : Int) : String :=
  if 0 ≤ n ∧ n < 10 then "0" ++ toString n else toString n

/-- Text written by `print_icon (fp, path)`: format `"^i(%s) "`. -/
def print_icon (path : String) : String := "^i(" ++ path ++ ") "

/-- Text written by `print_dot (fp)`: format `" %s "` applied to `DOT`. -/
def print_dot : String := " " ++ DOT ++ " "

/-! ## CPU usage -/

/-- The entries of `long cp_time[CPUSTATES]` that `print_cpu_usage` reads:
    `cp_time[CP_USER]`, `cp_time[CP_NICE]`, `cp_time[CP_SYS]` and
    `cp_time[CP_IDLE]`, as left by `sysctlbyname`. -/
structure CpTime where
  user : Int
  nice : Int
  sys : Int
  idle : Int
deriving DecidableEq, Repr

/-- The `static` locals of `print_cpu_usage`; both start at 0. -/
structure CpuState where
  prev_total : Int
  prev_idle : Int
deriving DecidableEq, Repr

/-- What a call of `print_cpu_usage` that returns leaves behind. -/
structure CpuResult where
  /-- the `static` locals after the call -/
  state : CpuState
  /-- the local `diff_usage` -/
  diff_usage : Int
  /-- the text appended to the line -/
  text : String
deriving DecidableEq, Repr

/-- The local `curr_idle` (line 161): `cp_time[CP_IDLE]` converted to `int`. -/
def curr_idle (cp_time : CpTime) : Int := wrapInt cp_time.idle

/-- The local `curr_total` (line 162):
    `curr_user + curr_nice + curr_system + curr_idle`, summed left to right
    in `int`. -/
def curr_total (cp_time : CpTime) : Int :=
  wrapInt (wrapInt (wrapInt (wrapInt cp_time.user + wrapInt cp_time.nice)
    + wrapInt cp_time.sys) + curr_idle cp_time)

/-- The local `diff_idle` (line 163). -/
def diff_idle (st : CpuState) (cp_time : CpTime) : Int :=
  wrapInt (curr_idle cp_time - st.prev_idle)

/-- The local `diff_total` (line 164). -/
def diff_total (st : CpuState) (cp_time : CpTime) : Int :=
  wrapInt (curr_total cp_time - st.prev_total)

/-- Function `print_cpu_usage` (lines 144-171).  Line 165 divides by `diff_total`
    with no test of it, before the `static` locals are updated. -/
def print_cpu_usage (st : CpuState) (cp_time : CpTime) : Except Halt CpuResult := do
  let dIdle := diff_idle st cp_time
  let dTotal := diff_total st cp_time
  let q ← cdiv (wrapInt (1000 * wrapInt (dTotal - dIdle))) dTotal
  let diff_usage := Int.tdiv (wrapInt (q + 5)) 10
  pure {
    state := { prev_total := curr_total cp_time, prev_idle := curr_idle cp_time }
    diff_usage := diff_usage
    text := print_icon ICON_LOAD ++ (fmt_02d diff_usage ++ "%") }

/-- The `static` locals of `print_cpu_usage` before its first call. -/
def CpuState.init : CpuState := { prev_total := 0, prev_idle := 0 }

/-- The `static` locals that a returning call on the sample `s` stores
    (lines 166-167). -/
def cpuStateOf (s : CpTime) : CpuState :=
  { prev_total := curr_total s, prev_idle := curr_idle s }

/-! ## Battery -/

def STATE_AC : Int := 0

def STATE_CHARGING : Int := 6

def STATE_DISCHARGING : Int := 1

/-- The values the three battery `sysctlbyname` calls of `print_bat` leave in
    their variables when they are made: `hw.acpi.battery.state` (always
    read), `hw.acpi.battery.life` (read only while discharging or charging)
    and `hw.acpi.battery.time` (read only when "ON BATTERY" is shown). -/
structure BatReading where
  state : Int
  life : Int
  time : Int
deriving DecidableEq, Repr

/-- What a call of `print_bat` leaves behind. -/
structure BatResult where
  /-- the `static` local `prev_state` after the call (it starts at 0) -/
  prev_state : Int
  /-- the local `life` that is tested and printed -/
  life : Int
  /-- the messages passed to `show_message`, in order -/
  msgs : List String
  /-- the text appended to the line -/
  text : String
deriving DecidableEq, Repr

/-- Function `print_bat` (lines 84-121).  The locals `hours` and `minutes` of lines
    102-103 are assigned (division by the constant 60) and never used. -/
def print_bat (prev_state : Int) (r : BatReading) : BatResult :=
  let state := r.state
  let life := if state = STATE_DISCHARGING ∨ state = STATE_CHARGING then r.life else 100
  let onBattery : List String :=
    if state = STATE_DISCHARGING ∧ prev_state ≠ STATE_DISCHARGING then ["ON BATTERY"] else []
  let plugAc : List String := if life < 10 then ["PLUG AC!"] else []
  let icon :=
    if state = STATE_AC ∨ state = STATE_CHARGING then print_icon ICON_POWER_AC
    else if state = STATE_DISCHARGING then print_icon ICON_POWER_BAT
    else "[?] "
  { prev_state := state
    life := life
    msgs := onBattery ++ plugAc
    text := icon ++ (fmt_d life ++ "%") }

/-- Consecutive calls of `print_bat`, one per reading, each call starting
    from the `prev_state` stored by the call before it. -/
def run_bat (prev_state : Int) : List BatReading → List BatResult
  | [] => []
  | r :: rs => print_bat prev_state r :: run_bat (print_bat prev_state r).prev_state rs

/-! ## Temperature -/

def TZ_ZEROC : Int := 2732

/-- What a call of `print_temp` leaves behind. -/
structure TempResult where
  /-- the `static` local `prev_temp` after the call (it starts at 0) -/
  prev_temp : Int
  /-- the local `temp` after line 133 -/
  temp : Int
  /-- the messages passed to `show_message` -/
  msgs : List String
  /-- the text appended to the line -/
  text : String
deriving DecidableEq, Repr

/-- First operand of the macro `TZ_KELVTOC (x)`: `((x) - TZ_ZEROC) / 10`. -/
def TZ_KELVTOC (x : Int) : Int := Int.tdiv (wrapInt (x - TZ_ZEROC)) 10

/-- Second operand of the macro `TZ_KELVTOC (x)`:
    `abs (((x) - TZ_ZEROC) % 10)`. -/
def TZ_KELVTOC_frac (x : Int) : Int := Int.natAbs (Int.tmod (wrapInt (x - TZ_ZEROC)) 10)

/-- Function `print_temp` (lines 125-142); `raw` is the value of `temp` after the
    `sysctlbyname` call.  Line 133 expands to
    `temp = (((temp) - TZ_ZEROC) / 10), abs (((temp) - TZ_ZEROC) % 10);`:
    the assignment binds tighter than the comma, so `temp` receives the
    quotient and the value of the `abs` call is discarded. -/
def print_temp (prev_temp : Int) (raw : Int) : TempResult :=
  let temp := TZ_KELVTOC raw
  let high : List String :=
    if temp ≥ 80 ∧ prev_temp < 80 then ["High temperature"] else []
  { prev_temp := temp
    temp := temp
    msgs := high
    text := print_icon ICON_TEMP ++ (fmt_d temp ++ " C") }

/-- Consecutive calls of `print_temp`, one per raw reading, each call
    starting from the `prev_temp` stored by the call before it. -/
def run_temp (prev_temp : Int) : List Int → List TempResult
  | [] => []
  | raw :: raws => print_temp prev_temp raw :: run_temp (print_temp prev_temp raw).prev_temp raws

/-! ## Volume -/

/-- What the mixer calls of `print_volume` answer in one pass. -/
structure MixerEnv where
  /-- the value `open ("/dev/mixer", O_RDWR)` returns if it is called -/
  open_result : Int
  /-- the value the `ioctl` call returns -/
  ioctl_result : Int
  /-- the value of `vol` after the `ioctl` call -/
  vol : Int
deriving DecidableEq, Repr

/-- What a call of `print_volume` that returns leaves behind. -/
structure VolResult where
  /-- the `static` local `fd` after the call (it starts at 0) -/
  fd : Int
  /-- the local `vol` after the mask of line 187 -/
  vol : Int
  /-- the text appended to the line -/
  text : String
deriving DecidableEq, Repr

/-- Function `print_volume` (lines 173-194); `err (1, ...)` ends the process. -/
def print_volume (fd : Int) (env : MixerEnv) : Except Halt VolResult := do
  let fd1 ←
    if fd = 0 then
      (if env.open_result < 0 then Except.error (Halt.exit 1 "open(/dev/mixer)")
       else Except.ok env.open_result)
    else Except.ok fd
  if env.ioctl_result = -1 then
    Except.error (Halt.exit 1 "ioctl(mixer)")
  else
    let vol := Int.land env.vol 127
    let icon := if vol > 0 then print_icon ICON_VOLUME_HIGH else print_icon ICON_VOLUME_MUTE
    pure { fd := fd1, vol := vol, text := icon ++ (fmt_d vol ++ "%") }

/-! ## Date -/

/-- The fields of `struct tm` that the format of `print_date` uses, as
    `localtime` fills them: minute, hour, day of the month, month counted
    from 0, year counted from 1900. -/
structure Tm where
  tm_min : Int
  tm_hour : Int
  tm_mday : Int
  tm_mon : Int
  tm_year : Int
deriving DecidableEq, Repr

/-- Conversion `%2d` of `printf`: as `%d`, padded on the left with a blank
    to a width of two characters. -/
def fmt_2d (n : Int) : String :=
  if 0 ≤ n ∧ n < 10 then " " ++ toString n else toString n

/-- Function `print_date` (lines 196-208): the text `strftime` produces for the
    format `"%d-%m-%Y %k:%M"`, following the C library manual: `%d`, `%m`
    and `%M` are two digits padded with `0`, `%Y` is the year in full, and
    `%k` is the hour of the 24-hour clock with a single digit preceded by a
    blank. -/
def print_date (tm : Tm) : String :=
  fmt_02d tm.tm_mday ++ "-" ++ fmt_02d (tm.tm_mon + 1) ++ "-" ++ fmt_d (tm.tm_year + 1900)
    ++ " " ++ fmt_2d tm.tm_hour ++ ":" ++ fmt_02d tm.tm_min

/-! ## One pass of the loop of `main` -/

/-- All `static` locals of the program that persist from pass to pass. -/
structure State where
  /-- local `prev_state` of `print_bat` -/
  bat_prev_state : Int
  /-- local `prev_temp` of `print_temp` -/
  prev_temp : Int
  /-- locals `prev_total` and `prev_idle` of `print_cpu_usage` -/
  cpu : CpuState
  /-- local `fd` of `print_volume` -/
  mixer_fd : Int
deriving DecidableEq, Repr

/-- The state at program start: every `static` local is zero. -/
def State.init : State :=
  { bat_prev_state := 0, prev_temp := 0, cpu := CpuState.init, mixer_fd := 0 }

/-- Everything one pass of the loop reads from the outside. -/
structure Sample where
  bat : BatReading
  temp : Int
  cp_time : CpTime
  mixer : MixerEnv
  tm : Tm
deriving DecidableEq, Repr

/-- What a completed pass of the loop leaves behind. -/
structure CycleResult where
  state : State
  /-- the messages shown during the pass, in order -/
  msgs : List String
  /-- the text written to the pipe and flushed at the end of the pass -/
  line : String
deriving DecidableEq, Repr

/-- The body of the `for (;;)` loop of `main` (lines 220-231). -/
def cycle (st : State) (s : Sample) : Except Halt CycleResult := do
  let b := print_bat st.bat_prev_state s.bat
  let t := print_temp st.prev_temp s.temp
  let c ← print_cpu_usage st.cpu s.cp_time
  let v ← print_volume st.mixer_fd s.mixer
  let d := print_date s.tm
  pure {
    state := { bat_prev_state := b.prev_state, prev_temp := t.prev_temp,
               cpu := c.state, mixer_fd := v.fd }
    msgs := b.msgs ++ t.msgs
    line := b.text ++ print_dot ++ t.text ++ print_dot ++ c.text ++ print_dot
              ++ v.text ++ print_dot ++ d ++ "\n" }

/-- The text that one pass has handed to `fprintf` and that waits in the
    buffer of `fp` (a pipe, flushed only by line 231) at the moment the pass
    is stopped.  Both calls that can stop a pass stop before they print
    their own field: line 165 precedes line 169, and lines 181 and 185
    precede line 190.  So the buffer holds the battery field, a separator,
    the temperature field and a separator when `print_cpu_usage` stops the
    pass, and the CPU field and one more separator as well when
    `print_volume` stops it. -/
def buffered_at_stop (st : State) (s : Sample) : String :=
  let b := print_bat st.bat_prev_state s.bat
  let t := print_temp st.prev_temp s.temp
  match print_cpu_usage st.cpu s.cp_time with
  | Except.error _ => b.text ++ print_dot ++ t.text ++ print_dot
  | Except.ok c => b.text ++ print_dot ++ t.text ++ print_dot ++ c.text ++ print_dot

/-- What a stop of the process lets through to the pipe: `err` ends the
    process through `exit`, which flushes the buffer of `fp`, so the text
    buffered in the stopped pass is written; the division trap kills the
    process by a signal and the buffer is lost. -/
def flushed_on (h : Halt) (buffer : String) : List String :=
  match h with
  | Halt.fault => []
  | Halt.exit _ _ => [buffer]

/-- What follows one pass of the loop.  When the pass stopped the process,
    only what the stop flushes of `buffer` is written and the process is
    gone; otherwise the line of the pass has been written and `next` runs the
    following passes from the state the pass left. -/
def after_pass (pass : Except Halt CycleResult) (buffer : String)
    (next : State → List String × Option Halt) : List String × Option Halt :=
  match pass with
  | Except.error h => (flushed_on h buffer, some h)
  | Except.ok r => (r.line :: (next r.state).1, (next r.state).2)

/-- The `for (;;)` loop of `main` (lines 219-233) on the samples of
    consecutive passes: the texts that reach the pipe, in order (one line,
    newline included, per completed pass, and the unfinished text that `exit`
    flushes when a pass is stopped by `err`), and the way the process stopped
    when a pass did not complete (`none` when the samples ran out first).
    No pass follows a pass that stops the process. -/
def main_loop (st : State) : List Sample → List String × Option Halt
  | [] => ([], none)
  | s :: rest =>
    after_pass (cycle st s) (buffered_at_stop st s) (fun st1 => main_loop st1 rest)

/-- The division of line 165 traps on the values of this call: the divisor
    `diff_total` is 0, or the quotient `INT_MIN / -1` is not an `int`. -/
def usage_division_traps (st : CpuState) (cp_time : CpTime) : Prop :=
  diff_total st cp_time = 0 ∨
  (wrapInt (1000 * wrapInt (diff_total st cp_time - diff_idle st cp_time)) = INT_MIN ∧
    diff_total st cp_time = -1)

instance instDecidableUsageDivisionTraps (st : CpuState) (cp_time : CpTime) :
    Decidable (usage_division_traps st cp_time) := by
  unfold usage_division_traps
  infer_instance

/-! ## Exact quantities the properties are stated with -/

/-- The number `n` of 0..99 written with exactly two decimal digits. -/
def two_digits (n : Int) : String :=
  String.mk [Nat.digitChar (n.toNat / 10), Nat.digitChar (n.toNat % 10)]

/-- The number `n` of 0..9999 written with exactly four decimal digits. -/
def four_digits (n : Int) : String :=
  String.mk [Nat.digitChar (n.toNat / 1000), Nat.digitChar (n.toNat / 100 % 10),
    Nat.digitChar (n.toNat / 10 % 10), Nat.digitChar (n.toNat % 10)]

/-- The number `n` of 0..99 in a field of two characters, a single digit
    preceded by a blank. -/
def blank_padded (n : Int) : String :=
  if n < 10 then String.mk [Char.ofNat 32, Nat.digitChar n.toNat] else two_digits n

/-- The fields of a `struct tm` lie in the ranges of a local time whose year
    has four digits. -/
def TmInRange (tm : Tm) : Prop :=
  (0 ≤ tm.tm_min ∧ tm.tm_min ≤ 59) ∧ (0 ≤ tm.tm_hour ∧ tm.tm_hour ≤ 23) ∧
  (1 ≤ tm.tm_mday ∧ tm.tm_mday ≤ 31) ∧ (0 ≤ tm.tm_mon ∧ tm.tm_mon ≤ 11) ∧
  (1000 ≤ tm.tm_year + 1900 ∧ tm.tm_year + 1900 ≤ 9999)

instance instDecidableTmInRange (tm : Tm) : Decidable (TmInRange tm) := by
  unfold TmInRange
  infer_instance

/-- Exact sum of the four tick counts of a sample. -/
def tickTotal (s : CpTime) : Int := s.user + s.nice + s.sys + s.idle

/-- Exact difference of the tick totals of two consecutive samples. -/
def deltaTotal (prev cur : CpTime) : Int := tickTotal cur - tickTotal prev

/-- Exact difference of the idle ticks of two consecutive samples. -/
def deltaIdle (prev cur : CpTime) : Int := cur.idle - prev.idle

/-- Two consecutive CPU samples whose tick counts are non-negative and
    non-decreasing, and small enough that no `int` computed by
    `print_cpu_usage` overflows: the current total fits in an `int`, and so
    does 1000 times the number of busy ticks between the samples. -/
def SamplePair (prev cur : CpTime) : Prop :=
  (0 ≤ prev.user ∧ prev.user ≤ cur.user) ∧ (0 ≤ prev.nice ∧ prev.nice ≤ cur.nice) ∧
  (0 ≤ prev.sys ∧ prev.sys ≤ cur.sys) ∧ (0 ≤ prev.idle ∧ prev.idle ≤ cur.idle) ∧
  tickTotal cur ≤ INT_MAX ∧
  1000 * (deltaTotal prev cur - deltaIdle prev cur) ≤ INT_MAX

instance instDecidableSamplePair (prev cur : CpTime) : Decidable (SamplePair prev cur) := by
  unfold SamplePair
  infer_instance

/-- The value a `static` local holds when pass `i` starts, if it is
    `init` at program start and pass `j` stores `stored[j]` in it: `init`
    for the first pass, what pass `i - 1` stored otherwise. -/
def value_before (init : Int) (stored : List Int) (i : Nat) : Int :=
  match i with
  | 0 => init
  | j + 1 => stored.getD j init

/-! ## Arithmetic of C integers -/

theorem wrapInt_of_bounds {x : Int} (h1 : -2147483648 ≤ x) (h2 : x ≤ 2147483647) :
    wrapInt x = x := by
  unfold wrapInt
  omega

theorem wrapInt_zero : wrapInt 0 = 0 := by decide

theorem ok_bind {ε α β : Type} (a : α) (f : α → Except ε β) :
    (Except.ok a >>= f) = f a := rfl

theorem error_bind {ε α β : Type} (e : ε) (f : α → Except ε β) :
    ((Except.error e : Except ε α) >>= f) = Except.error e := rfl

theorem pure_eq_ok {ε α : Type} (a : α) : (pure a : Except ε α) = Except.ok a := rfl

theorem cdiv_zero (a : Int) : cdiv a 0 = Except.error Halt.fault := by
  simp [cdiv]

theorem cdiv_of_pos {a b : Int} (ha : 0 ≤ a) (hb : 0 < b) : cdiv a b = Except.ok (a / b) := by
  unfold cdiv
  have h1 : ¬ b = 0 := by omega
  have h2 : ¬ (a = INT_MIN ∧ b = -1) := by
    intro h
    omega
  rw [if_neg h1, if_neg h2, Int.tdiv_eq_ediv ha (le_of_lt hb)]

/-! ## Decimal digits and the mask -/

theorem toDigitsCore_last (f n : Nat) (ds : List Char) (h : n < 10) :
    Nat.toDigitsCore 10 (f + 1) n ds = Nat.digitChar n :: ds := by
  have b : n / 10 = 0 := by omega
  have c : n % 10 = n := by omega
  rw [Nat.toDigitsCore]
  simp only [b, c, if_true]

theorem toDigitsCore_more (f n : Nat) (ds : List Char) (h : 10 ≤ n) :
    Nat.toDigitsCore 10 (f + 1) n ds
      = Nat.toDigitsCore 10 f (n / 10) (Nat.digitChar (n % 10) :: ds) := by
  have b : ¬ n / 10 = 0 := by omega
  rw [Nat.toDigitsCore]
  simp only [b, if_false]

theorem repr_one_digit (n : Nat) (h2 : n < 10) : Nat.repr n = String.mk [Nat.digitChar n] := by
  unfold Nat.repr Nat.toDigits
  rw [toDigitsCore_last n n [] h2]
  rfl

theorem repr_two_digits (n : Nat) (h1 : 10 ≤ n) (h2 : n < 100) :
    Nat.repr n = String.mk [Nat.digitChar (n / 10), Nat.digitChar (n % 10)] := by
  unfold Nat.repr Nat.toDigits
  obtain ⟨k, rfl⟩ : ∃ k, n = k + 1 := ⟨n - 1, by omega⟩
  rw [toDigitsCore_more _ _ _ h1, toDigitsCore_last _ _ _ (by omega)]
  rfl

theorem repr_four_digits (n : Nat) (h1 : 1000 ≤ n) (h2 : n < 10000) :
    Nat.repr n = String.mk [Nat.digitChar (n / 1000), Nat.digitChar (n / 100 % 10),
      Nat.digitChar (n / 10 % 10), Nat.digitChar (n % 10)] := by
  unfold Nat.repr Nat.toDigits
  obtain ⟨k, rfl⟩ : ∃ k, n = k + 3 := ⟨n - 3, by omega⟩
  rw [toDigitsCore_more _ _ _ (by omega), toDigitsCore_more _ _ _ (by omega),
    toDigitsCore_more _ _ _ (by omega), toDigitsCore_last _ _ _ (by omega)]
  have e : (k + 3) / 10 / 10 / 10 = (k + 3) / 1000 := by omega
  have e2 : (k + 3) / 10 / 10 = (k + 3) / 100 := by omega
  rw [e, e2]
  rfl

/-- The conversion `%02d` writes 0..99 with exactly two digits. -/
theorem fmt_02d_two_digits (n : Int) (h0 : 0 ≤ n) (h1 : n ≤ 99) : fmt_02d n = two_digits n := by
  obtain ⟨k, rfl⟩ := Int.eq_ofNat_of_zero_le h0
  unfold fmt_02d two_digits
  by_cases h : (k : Int) < 10
  · have hk : k < 10 := by omega
    have e1 : k / 10 = 0 := by omega
    have e2 : k % 10 = k := by omega
    rw [if_pos ⟨h0, h⟩]
    show "0" ++ Nat.repr k = String.mk [Nat.digitChar (k / 10), Nat.digitChar (k % 10)]
    rw [repr_one_digit k hk, e1, e2]
    rfl
  · have hk : 10 ≤ k := by omega
    rw [if_neg (fun hh => h hh.2)]
    show Nat.repr k = String.mk [Nat.digitChar (k / 10), Nat.digitChar (k % 10)]
    exact repr_two_digits k hk (by omega)

/-- The conversion `%2d` writes 0..99 in two characters, blank first below 10. -/
theorem fmt_2d_blank_padded (n : Int) (h0 : 0 ≤ n) (h1 : n ≤ 99) :
    fmt_2d n = blank_padded n := by
  obtain ⟨k, rfl⟩ := Int.eq_ofNat_of_zero_le h0
  unfold fmt_2d blank_padded two_digits
  by_cases h : (k : Int) < 10
  · have hk : k < 10 := by omega
    rw [if_pos ⟨h0, h⟩, if_pos h]
    show " " ++ Nat.repr k = String.mk [Char.ofNat 32, Nat.digitChar k]
    rw [repr_one_digit k hk]
    rfl
  · have hk : 10 ≤ k := by omega
    rw [if_neg (fun hh => h hh.2), if_neg h]
    show Nat.repr k = String.mk [Nat.digitChar (k / 10), Nat.digitChar (k % 10)]
    exact repr_two_digits k hk (by omega)

/-- The conversion `%d` writes 1000..9999 with exactly four digits. -/
theorem fmt_d_four_digits (n : Int) (h0 : 1000 ≤ n) (h1 : n ≤ 9999) :
    fmt_d n = four_digits n := by
  obtain ⟨k, rfl⟩ := Int.eq_ofNat_of_zero_le (show (0 : Int) ≤ n by omega)
  unfold fmt_d four_digits
  show Nat.repr k = _
  exact repr_four_digits k (by omega) (by omega)

/-- The mask `& 0x7f` keeps the residue modulo 128. -/
theorem land_127_eq_emod (x : Int) : Int.land x 127 = x % 128 := by
  cases x with
  | ofNat n =>
    show ((n &&& 127 : Nat) : Int) = (n : Int) % 128
    have h : n &&& 127 = n % 128 := Nat.and_pow_two_sub_one_eq_mod n 7
    rw [h]
    omega
  | negSucc n =>
    show ((Nat.ldiff 127 n : Nat) : Int) = Int.negSucc n % 128
    have h : Nat.ldiff 127 n = 127 - n % 128 := by
      apply Nat.eq_of_testBit_eq
      intro i
      have e : 127 - n % 128 = 2 ^ 7 - (n % 2 ^ 7 + 1) := by omega
      rw [Nat.testBit_ldiff, e, Nat.testBit_two_pow_sub_succ (Nat.mod_lt _ (by decide)),
        Nat.testBit_mod_two_pow]
      have e2 : Nat.testBit 127 i = decide (i < 7) := Nat.testBit_two_pow_sub_one 7 i
      rw [e2]
      by_cases hi : i < 7 <;> simp [hi]
    rw [h, Int.negSucc_eq]
    omega

/-! ## CPU usage -/

theorem curr_idle_of_pair {prev cur : CpTime} (h : SamplePair prev cur) :
    curr_idle prev = prev.idle ∧ curr_idle cur = cur.idle := by
  obtain ⟨⟨hu0, hu⟩, ⟨hn0, hn⟩, ⟨hs0, hs⟩, ⟨hi0, hi⟩, hfit, -⟩ := h
  unfold tickTotal INT_MAX at hfit
  constructor <;> unfold curr_idle <;> apply wrapInt_of_bounds <;> omega

theorem curr_total_of_pair {prev cur : CpTime} (h : SamplePair prev cur) :
    curr_total prev = tickTotal prev ∧ curr_total cur = tickTotal cur := by
  obtain ⟨hip, hic⟩ := curr_idle_of_pair h
  obtain ⟨⟨hu0, hu⟩, ⟨hn0, hn⟩, ⟨hs0, hs⟩, ⟨hi0, hi⟩, hfit, -⟩ := h
  unfold tickTotal INT_MAX at hfit
  have w : ∀ x : Int, 0 ≤ x → x ≤ 2147483647 → wrapInt x = x := fun x h1 h2 =>
    wrapInt_of_bounds (by omega) h2
  constructor
  · unfold curr_total tickTotal
    rw [hip, w prev.user (by omega) (by omega), w prev.nice (by omega) (by omega),
      w prev.sys (by omega) (by omega), w (prev.user + prev.nice) (by omega) (by omega),
      w (prev.user + prev.nice + prev.sys) (by omega) (by omega),
      w (prev.user + prev.nice + prev.sys + prev.idle) (by omega) (by omega)]
  · unfold curr_total tickTotal
    rw [hic, w cur.user (by omega) (by omega), w cur.nice (by omega) (by omega),
      w cur.sys (by omega) (by omega), w (cur.user + cur.nice) (by omega) (by omega),
      w (cur.user + cur.nice + cur.sys) (by omega) (by omega),
      w (cur.user + cur.nice + cur.sys + cur.idle) (by omega) (by omega)]

theorem diffs_of_pair {prev cur : CpTime} (h : SamplePair prev cur) :
    diff_total (cpuStateOf prev) cur = deltaTotal prev cur ∧
    diff_idle (cpuStateOf prev) cur = deltaIdle prev cur := by
  obtain ⟨hip, hic⟩ := curr_idle_of_pair h
  obtain ⟨htp, htc⟩ := curr_total_of_pair h
  obtain ⟨⟨hu0, hu⟩, ⟨hn0, hn⟩, ⟨hs0, hs⟩, ⟨hi0, hi⟩, hfit, -⟩ := h
  unfold INT_MAX at hfit
  unfold diff_total diff_idle cpuStateOf deltaTotal deltaIdle
  simp only [hip, hic, htp, htc]
  unfold tickTotal at hfit ⊢
  constructor <;> apply wrapInt_of_bounds <;> omega

theorem usage_quotient_bounds {u t : Int} (hu : 0 ≤ u) (hut : u ≤ t) (ht : 0 < t) :
    0 ≤ 1000 * u / t ∧ 1000 * u / t ≤ 1000 := by
  constructor
  · exact Int.ediv_nonneg (by omega) (le_of_lt ht)
  · apply Int.ediv_le_of_le_mul ht
    nlinarith

/-- On a pair of samples without overflow and with a positive tick
    difference, `print_cpu_usage` returns, stores the current sample and
    computes the usage from the exact differences. -/
theorem print_cpu_usage_of_pair {prev cur : CpTime} (h : SamplePair prev cur)
    (hpos : 0 < deltaTotal prev cur) :
    print_cpu_usage (cpuStateOf prev) cur = Except.ok
      { state := cpuStateOf cur
        diff_usage :=
          (1000 * (deltaTotal prev cur - deltaIdle prev cur) / deltaTotal prev cur + 5) / 10
        text := print_icon ICON_LOAD ++ (fmt_02d
          ((1000 * (deltaTotal prev cur - deltaIdle prev cur) / deltaTotal prev cur + 5) / 10)
            ++ "%") } := by
  obtain ⟨hdt, hdi⟩ := diffs_of_pair h
  have h0 := h
  obtain ⟨⟨hu0, hu⟩, ⟨hn0, hn⟩, ⟨hs0, hs⟩, ⟨hi0, hi⟩, hfit, hmul⟩ := h0
  unfold INT_MAX at hfit hmul
  have hbusy : 0 ≤ deltaTotal prev cur - deltaIdle prev cur := by
    unfold deltaTotal deltaIdle tickTotal
    omega
  have hle : deltaTotal prev cur - deltaIdle prev cur ≤ deltaTotal prev cur := by
    unfold deltaIdle
    omega
  have htot : deltaTotal prev cur ≤ 2147483647 := by
    unfold deltaTotal tickTotal at *
    omega
  obtain ⟨hq0, hq1⟩ := usage_quotient_bounds hbusy hle hpos
  have w1 : wrapInt (deltaTotal prev cur - deltaIdle prev cur)
      = deltaTotal prev cur - deltaIdle prev cur := wrapInt_of_bounds (by omega) (by omega)
  have w2 : wrapInt (1000 * (deltaTotal prev cur - deltaIdle prev cur))
      = 1000 * (deltaTotal prev cur - deltaIdle prev cur) :=
    wrapInt_of_bounds (by omega) hmul
  have w3 : wrapInt (1000 * (deltaTotal prev cur - deltaIdle prev cur) / deltaTotal prev cur + 5)
      = 1000 * (deltaTotal prev cur - deltaIdle prev cur) / deltaTotal prev cur + 5 :=
    wrapInt_of_bounds (by omega) (by omega)
  have d1 := cdiv_of_pos (a := 1000 * (deltaTotal prev cur - deltaIdle prev cur))
    (b := deltaTotal prev cur) (by omega) hpos
  have d2 : Int.tdiv
      (1000 * (deltaTotal prev cur - deltaIdle prev cur) / deltaTotal prev cur + 5) 10
      = (1000 * (deltaTotal prev cur - deltaIdle prev cur) / deltaTotal prev cur + 5) / 10 :=
    Int.tdiv_eq_ediv (by omega) (by decide)
  unfold print_cpu_usage
  simp only [hdt, hdi, w1, w2, d1, ok_bind, w3, d2, pure_eq_ok]
  rfl

theorem cpuStateOf_zero :
    cpuStateOf { user := 0, nice := 0, sys := 0, idle := 0 } = CpuState.init := by decide

/-- Rounding lemma: `(1000 * u / t + 5) / 10` with flooring divisions is
    within one half of the rational `100 * u / t`. -/
theorem usage_rounds {u t : Int} (ht : 0 < t) :
    |(((1000 * u / t + 5) / 10 : Int) : ℚ) - 100 * (u : ℚ) / (t : ℚ)| ≤ 1 / 2 := by
  have hq1 : 1000 * u / t * t ≤ 1000 * u := Int.ediv_mul_le _ (by omega)
  have hq2 : 1000 * u < (1000 * u / t + 1) * t := Int.lt_ediv_add_one_mul_self _ ht
  generalize 1000 * u / t = q at hq1 hq2
  have hr1 : 10 * ((q + 5) / 10) ≤ q + 5 := by omega
  have hr2 : q + 5 < 10 * ((q + 5) / 10) + 10 := by omega
  generalize (q + 5) / 10 = r at hr1 hr2
  have k1 : 2 * (r * t - 100 * u) ≤ t := by
    nlinarith [mul_nonneg (show 0 ≤ q + 5 - 10 * r by omega) (le_of_lt ht)]
  have k2 : -t ≤ 2 * (r * t - 100 * u) := by
    nlinarith [mul_nonneg (show 0 ≤ 10 * r + 5 - (q + 1) by omega) (le_of_lt ht)]
  have htq : (0 : ℚ) < (t : ℚ) := by exact_mod_cast ht
  have k1q : 2 * ((r : ℚ) * t - 100 * u) ≤ t := by exact_mod_cast k1
  have k2q : -(t : ℚ) ≤ 2 * ((r : ℚ) * t - 100 * u) := by exact_mod_cast k2
  have e : (r : ℚ) - 100 * (u : ℚ) / (t : ℚ) = ((r : ℚ) * t - 100 * u) / t := by
    field_simp
  rw [e, abs_le]
  constructor
  · rw [le_div_iff₀ htq]
    linarith
  · rw [div_le_iff₀ htq]
    linarith

/-! ## Battery and temperature runs -/

theorem value_before_cons (init a : Int) (l : List Int) (j : Nat) (h : j < l.length + 1) :
    value_before init (a :: l) (j + 1) = value_before a l j := by
  cases j with
  | zero => rfl
  | succ k =>
    have hk : k < l.length := by omega
    show (a :: l).getD (k + 1) init = l.getD k a
    rw [List.getD_cons_succ, List.getD_eq_getElem l init hk, List.getD_eq_getElem l a hk]

theorem print_bat_prev_state (p : Int) (r : BatReading) : (print_bat p r).prev_state = r.state :=
  rfl

theorem print_temp_prev_temp (p raw : Int) : (print_temp p raw).prev_temp = TZ_KELVTOC raw :=
  rfl

/-- Pass `i` of a run of `print_bat` is the call on reading `i` from the
    state of the reading before it. -/
theorem run_bat_getElem? (p : Int) (rs : List BatReading) (i : Nat) (h : i < rs.length) :
    (run_bat p rs)[i]? =
      some (print_bat (value_before p (rs.map BatReading.state) i) rs[i]) := by
  induction rs generalizing p i with
  | nil => exact absurd h (by simp)
  | cons r rs ih =>
    cases i with
    | zero => simp [run_bat, value_before]
    | succ j =>
      have hj : j < rs.length := by simpa using h
      have hj2 : j < (rs.map BatReading.state).length + 1 := by
        rw [List.length_map]
        omega
      rw [run_bat, List.getElem?_cons_succ, ih _ j hj, print_bat_prev_state, List.map_cons,
        value_before_cons _ _ _ _ hj2]
      simp

/-- Pass `i` of a run of `print_temp` is the call on reading `i` from the
    Celsius value of the reading before it. -/
theorem run_temp_getElem? (p : Int) (raws : List Int) (i : Nat) (h : i < raws.length) :
    (run_temp p raws)[i]? =
      some (print_temp (value_before p (raws.map TZ_KELVTOC) i) raws[i]) := by
  induction raws generalizing p i with
  | nil => exact absurd h (by simp)
  | cons r raws ih =>
    cases i with
    | zero => simp [run_temp, value_before]
    | succ j =>
      have hj : j < raws.length := by simpa using h
      have hj2 : j < (raws.map TZ_KELVTOC).length + 1 := by
        rw [List.length_map]
        omega
      rw [run_temp, List.getElem?_cons_succ, ih _ j hj, print_temp_prev_temp, List.map_cons,
        value_before_cons _ _ _ _ hj2]
      simp

/-- One call of `print_bat` shows "ON BATTERY" exactly on the edge. -/
theorem on_battery_mem_iff (p : Int) (r : BatReading) :
    "ON BATTERY" ∈ (print_bat p r).msgs ↔
      r.state = STATE_DISCHARGING ∧ p ≠ STATE_DISCHARGING := by
  unfold print_bat
  simp only [List.mem_append]
  split_ifs <;> simp_all

/-- One call of `print_bat` shows "PLUG AC!" exactly when the life it
    prints is below 10. -/
theorem plug_ac_mem_iff (p : Int) (r : BatReading) :
    "PLUG AC!" ∈ (print_bat p r).msgs ↔ (print_bat p r).life < 10 := by
  unfold print_bat
  simp only [List.mem_append]
  split_ifs <;> simp_all

/-- One call of `print_temp` shows "High temperature" exactly on the edge. -/
theorem high_temp_mem_iff (p raw : Int) :
    "High temperature" ∈ (print_temp p raw).msgs ↔ TZ_KELVTOC raw ≥ 80 ∧ p < 80 := by
  unfold print_temp
  by_cases h : TZ_KELVTOC raw ≥ 80 ∧ p < 80
  · simp [h]
  · simp [h]

/-! ## Claims -/

set_option maxRecDepth 100000

/-- C1 (what the code does where the claim fails): whenever the current
    total of ticks equals the previous one, so that `diff_total` is 0,
    `print_cpu_usage` executes the division of line 165 all the same and the
    process stops on the division trap; no usage value is produced. -/
theorem C1_zero_diff_total_faults (st : CpuState) (cp_time : CpTime)
    (h : diff_total st cp_time = 0) :
    print_cpu_usage st cp_time = Except.error Halt.fault := by
  unfold print_cpu_usage
  simp only [h, cdiv_zero, error_bind]

/-- C1, at concrete inputs: the first call on an all-zero sample, and a
    second call on a repeated sample, both have `diff_total = 0` and trap. -/
theorem C1_zero_diff_total_faults_witness :
    diff_total CpuState.init { user := 0, nice := 0, sys := 0, idle := 0 } = 0 ∧
    print_cpu_usage CpuState.init { user := 0, nice := 0, sys := 0, idle := 0 }
      = Except.error Halt.fault ∧
    print_cpu_usage (cpuStateOf { user := 100, nice := 0, sys := 50, idle := 850 })
      { user := 100, nice := 0, sys := 50, idle := 850 } = Except.error Halt.fault :=
  ⟨by decide, C1_zero_diff_total_faults _ _ (by decide),
    C1_zero_diff_total_faults _ _ (by decide)⟩

/-- C2: for two consecutive CPU samples with non-negative, non-decreasing
    ticks and no `int` overflow, if `diff_total > 0` then `print_cpu_usage`
    returns and the usage it computes lies between 0 and 100. -/
theorem C2_cpu_usage_in_range (prev cur : CpTime) (h : SamplePair prev cur)
    (hpos : 0 < diff_total (cpuStateOf prev) cur) :
    ∃ r, print_cpu_usage (cpuStateOf prev) cur = Except.ok r ∧
      0 ≤ r.diff_usage ∧ r.diff_usage ≤ 100 := by
  rw [(diffs_of_pair h).1] at hpos
  refine ⟨_, print_cpu_usage_of_pair h hpos, ?_⟩
  have h0 := h
  obtain ⟨⟨hu0, hu⟩, ⟨hn0, hn⟩, ⟨hs0, hs⟩, ⟨hi0, hi⟩, -, -⟩ := h0
  have hbusy : 0 ≤ deltaTotal prev cur - deltaIdle prev cur := by
    unfold deltaTotal deltaIdle tickTotal
    omega
  have hle : deltaTotal prev cur - deltaIdle prev cur ≤ deltaTotal prev cur := by
    unfold deltaIdle
    omega
  obtain ⟨hq0, hq1⟩ := usage_quotient_bounds hbusy hle hpos
  constructor
  · show 0 ≤ (1000 * (deltaTotal prev cur - deltaIdle prev cur) / deltaTotal prev cur + 5) / 10
    omega
  · show (1000 * (deltaTotal prev cur - deltaIdle prev cur) / deltaTotal prev cur + 5) / 10 ≤ 100
    omega

/-- C2 at the samples {100,0,50,850} then {120,0,60,870}. -/
theorem C2_cpu_usage_in_range_witness :
    ∃ r, print_cpu_usage (cpuStateOf { user := 100, nice := 0, sys := 50, idle := 850 })
        { user := 120, nice := 0, sys := 60, idle := 870 } = Except.ok r ∧
      0 ≤ r.diff_usage ∧ r.diff_usage ≤ 100 :=
  C2_cpu_usage_in_range { user := 100, nice := 0, sys := 50, idle := 850 }
    { user := 120, nice := 0, sys := 60, idle := 870 } (by decide) (by decide)

/-- C3: for two consecutive CPU samples with non-negative, non-decreasing
    ticks, no `int` overflow and `diff_total > 0`, `print_cpu_usage` returns
    the value `(1000 * (diff_total - diff_idle) / diff_total + 5) / 10` with
    truncating divisions, and this value differs from the rational
    `100 * (diff_total - diff_idle) / diff_total` by at most one half; the
    samples {100,0,50,850} then {120,0,60,870} give `diff_total = 50`,
    `diff_idle = 20` and usage 60. -/
theorem C3_cpu_usage_rounds (prev cur : CpTime) (h : SamplePair prev cur)
    (hpos : 0 < diff_total (cpuStateOf prev) cur) :
    (∃ r, print_cpu_usage (cpuStateOf prev) cur = Except.ok r ∧
      r.diff_usage = Int.tdiv (Int.tdiv
          (1000 * (diff_total (cpuStateOf prev) cur - diff_idle (cpuStateOf prev) cur))
          (diff_total (cpuStateOf prev) cur) + 5) 10 ∧
      |(r.diff_usage : ℚ) -
          100 * ((diff_total (cpuStateOf prev) cur : ℚ) - (diff_idle (cpuStateOf prev) cur : ℚ))
            / (diff_total (cpuStateOf prev) cur : ℚ)| ≤ 1 / 2) ∧
    (diff_total (cpuStateOf { user := 100, nice := 0, sys := 50, idle := 850 })
        { user := 120, nice := 0, sys := 60, idle := 870 } = 50 ∧
     diff_idle (cpuStateOf { user := 100, nice := 0, sys := 50, idle := 850 })
        { user := 120, nice := 0, sys := 60, idle := 870 } = 20 ∧
     ∃ r, print_cpu_usage (cpuStateOf { user := 100, nice := 0, sys := 50, idle := 850 })
        { user := 120, nice := 0, sys := 60, idle := 870 } = Except.ok r ∧
        r.diff_usage = 60) := by
  refine ⟨?_, by decide, by decide, ⟨_, rfl, by decide⟩⟩
  obtain ⟨hdt, hdi⟩ := diffs_of_pair h
  rw [hdt] at hpos
  refine ⟨_, print_cpu_usage_of_pair h hpos, ?_, ?_⟩
  · have h0 := h
    obtain ⟨⟨hu0, hu⟩, ⟨hn0, hn⟩, ⟨hs0, hs⟩, ⟨hi0, hi⟩, -, -⟩ := h0
    have hbusy : 0 ≤ deltaTotal prev cur - deltaIdle prev cur := by
      unfold deltaTotal deltaIdle tickTotal
      omega
    have hle : deltaTotal prev cur - deltaIdle prev cur ≤ deltaTotal prev cur := by
      unfold deltaIdle
      omega
    obtain ⟨hq0, hq1⟩ := usage_quotient_bounds hbusy hle hpos
    rw [hdt, hdi, Int.tdiv_eq_ediv (by omega) (le_of_lt hpos),
      Int.tdiv_eq_ediv (by omega) (by decide)]
  · rw [hdt, hdi]
    have e := usage_rounds (u := deltaTotal prev cur - deltaIdle prev cur) hpos
    push_cast at e ⊢
    exact e

/-- C3 as stated fails on its scenario: the totals of the two samples are
    1000 and 1050, so `diff_total` is 50 (not 100) and, with `diff_idle = 20`,
    the usage is 60 (not 80). -/
theorem C3_scenario_counterexample :
    diff_total (cpuStateOf { user := 100, nice := 0, sys := 50, idle := 850 })
        { user := 120, nice := 0, sys := 60, idle := 870 } ≠ 100 ∧
    (print_cpu_usage (cpuStateOf { user := 100, nice := 0, sys := 50, idle := 850 })
        { user := 120, nice := 0, sys := 60, idle := 870 }).map CpuResult.diff_usage
      = Except.ok 60 ∧
    ¬ ∃ r, print_cpu_usage (cpuStateOf { user := 100, nice := 0, sys := 50, idle := 850 })
        { user := 120, nice := 0, sys := 60, idle := 870 } = Except.ok r ∧
        r.diff_usage = 80 := by
  refine ⟨by decide, by decide, ?_⟩
  rintro ⟨r, hr, h80⟩
  have h60 : print_cpu_usage (cpuStateOf { user := 100, nice := 0, sys := 50, idle := 850 })
      { user := 120, nice := 0, sys := 60, idle := 870 } = Except.ok
        { state := cpuStateOf { user := 120, nice := 0, sys := 60, idle := 870 }
          diff_usage := 60
          text := print_icon ICON_LOAD ++ (fmt_02d 60 ++ "%") } := by decide
  rw [h60] at hr
  have e := Except.ok.inj hr
  rw [← e] at h80
  exact absurd h80 (by decide)

/-- C3 at the samples of its scenario. -/
theorem C3_cpu_usage_rounds_witness :
    SamplePair { user := 100, nice := 0, sys := 50, idle := 850 }
      { user := 120, nice := 0, sys := 60, idle := 870 } ∧
    ∃ r, print_cpu_usage (cpuStateOf { user := 100, nice := 0, sys := 50, idle := 850 })
        { user := 120, nice := 0, sys := 60, idle := 870 } = Except.ok r ∧
      r.diff_usage = 60 :=
  ⟨by decide, (C3_cpu_usage_rounds { user := 100, nice := 0, sys := 50, idle := 850 }
    { user := 120, nice := 0, sys := 60, idle := 870 } (by decide) (by decide)).2.2.2⟩

/-- C4: in a run of `print_bat` calls from the initial previous state 0,
    "ON BATTERY" is shown in pass `i` if and only if the state of pass `i` is
    Discharging and the state of pass `i - 1` (the initial 0 when `i = 0`) is
    not; so it is not shown in a pass that follows a Discharging pass; and
    the states [OnAC, OnAC, Discharging, Discharging, OnAC, Discharging]
    show it in passes 2 and 5 only, whatever the life and time readings. -/
theorem C4_on_battery_edge (rs : List BatReading) (i : Nat) (h : i < rs.length) :
    (∃ o, (run_bat 0 rs)[i]? = some o ∧ o.prev_state = rs[i].state ∧
      ("ON BATTERY" ∈ o.msgs ↔
        rs[i].state = STATE_DISCHARGING ∧
          value_before 0 (rs.map BatReading.state) i ≠ STATE_DISCHARGING) ∧
      (value_before 0 (rs.map BatReading.state) i = STATE_DISCHARGING →
        "ON BATTERY" ∉ o.msgs)) ∧
    (∀ l0 l1 l2 l3 l4 l5 t0 t1 t2 t3 t4 t5 : Int,
      (run_bat 0 [
        { state := STATE_AC, life := l0, time := t0 },
        { state := STATE_AC, life := l1, time := t1 },
        { state := STATE_DISCHARGING, life := l2, time := t2 },
        { state := STATE_DISCHARGING, life := l3, time := t3 },
        { state := STATE_AC, life := l4, time := t4 },
        { state := STATE_DISCHARGING, life := l5, time := t5 }]).map
          (fun o => decide ("ON BATTERY" ∈ o.msgs))
        = [false, false, true, false, false, true]) := by
  constructor
  · refine ⟨_, run_bat_getElem? 0 rs i h, rfl, on_battery_mem_iff _ _, ?_⟩
    intro hprev hmem
    exact ((on_battery_mem_iff _ _).1 hmem).2 hprev
  · intro l0 l1 l2 l3 l4 l5 t0 t1 t2 t3 t4 t5
    simp [run_bat, on_battery_mem_iff, print_bat_prev_state, STATE_AC, STATE_DISCHARGING]

/-- C4 at pass 2 of the scenario sequence. -/
theorem C4_on_battery_edge_witness :
    ∃ o, (run_bat 0 [
        { state := 0, life := 100, time := 0 }, { state := 0, life := 100, time := 0 },
        { state := 1, life := 90, time := 200 }, { state := 1, life := 89, time := 198 },
        { state := 0, life := 100, time := 0 }, { state := 1, life := 88, time := 190 }])[2]?
          = some o ∧ "ON BATTERY" ∈ o.msgs :=
  let rs : List BatReading := [
        { state := 0, life := 100, time := 0 }, { state := 0, life := 100, time := 0 },
        { state := 1, life := 90, time := 200 }, { state := 1, life := 89, time := 198 },
        { state := 0, life := 100, time := 0 }, { state := 1, life := 88, time := 190 }]
  match (C4_on_battery_edge rs 2 (by decide)).1 with
  | ⟨o, ho, _, hiff, _⟩ => ⟨o, ho, hiff.2 (by decide)⟩

/-- C5: in every call of `print_bat`, whatever the previous state, "PLUG
    AC!" is shown if and only if the life value the call prints is below 10;
    the same holds in every pass of every run of calls. -/
theorem C5_plug_ac_level (p : Int) (r : BatReading) (rs : List BatReading) (i : Nat)
    (h : i < rs.length) :
    ("PLUG AC!" ∈ (print_bat p r).msgs ↔ (print_bat p r).life < 10) ∧
    (∃ icon, (print_bat p r).text = icon ++ (fmt_d (print_bat p r).life ++ "%")) ∧
    (∃ o, (run_bat p rs)[i]? = some o ∧ ("PLUG AC!" ∈ o.msgs ↔ o.life < 10) ∧
      ∃ icon, o.text = icon ++ (fmt_d o.life ++ "%")) :=
  ⟨plug_ac_mem_iff p r, ⟨_, rfl⟩, _, run_bat_getElem? p rs i h, plug_ac_mem_iff _ _, ⟨_, rfl⟩⟩

/-- C5 on a battery that stays at 9 percent for two passes: both passes show
    the message. -/
theorem C5_plug_ac_level_witness :
    (∃ o, (run_bat 0 [{ state := 1, life := 9, time := 20 },
        { state := 1, life := 9, time := 19 }])[1]? = some o ∧
      ("PLUG AC!" ∈ o.msgs ↔ o.life < 10)) ∧
    "PLUG AC!" ∈ (print_bat 1 { state := 1, life := 9, time := 19 }).msgs :=
  match (C5_plug_ac_level 1 { state := 1, life := 9, time := 19 }
      [{ state := 1, life := 9, time := 20 }, { state := 1, life := 9, time := 19 }] 1
      (by decide)) with
  | ⟨h1, _, o, ho, hiff, _⟩ => ⟨⟨o, ho, hiff⟩, h1.2 (by decide)⟩

/-- C6: in a run of `print_temp` calls from the initial previous
    temperature 0, "High temperature" is shown in pass `i` if and only if the
    Celsius value of pass `i` is at least 80 and the one stored by pass
    `i - 1` (0 when `i = 0`) is below 80; it is not shown in a pass that
    follows a pass at or above 80. -/
theorem C6_high_temperature_edge (raws : List Int) (i : Nat) (h : i < raws.length) :
    ∃ o, (run_temp 0 raws)[i]? = some o ∧
      o.temp = TZ_KELVTOC raws[i] ∧ o.prev_temp = TZ_KELVTOC raws[i] ∧
      ("High temperature" ∈ o.msgs ↔
        TZ_KELVTOC raws[i] ≥ 80 ∧ value_before 0 (raws.map TZ_KELVTOC) i < 80) ∧
      (value_before 0 (raws.map TZ_KELVTOC) i ≥ 80 → "High temperature" ∉ o.msgs) := by
  refine ⟨_, run_temp_getElem? 0 raws i h, rfl, rfl, high_temp_mem_iff _ _, ?_⟩
  intro hprev hmem
  have := ((high_temp_mem_iff _ _).1 hmem).2
  omega

/-- C6 on the readings 70 C, 81 C, 85 C: shown in pass 1, not in pass 2. -/
theorem C6_high_temperature_edge_witness :
    (∃ o, (run_temp 0 [3432, 3542, 3582])[1]? = some o ∧ "High temperature" ∈ o.msgs) ∧
    (∃ o, (run_temp 0 [3432, 3542, 3582])[2]? = some o ∧ "High temperature" ∉ o.msgs) :=
  ⟨match C6_high_temperature_edge [3432, 3542, 3582] 1 (by decide) with
    | ⟨o, ho, _, _, hiff, _⟩ => ⟨o, ho, hiff.2 (by decide)⟩,
   match C6_high_temperature_edge [3432, 3542, 3582] 2 (by decide) with
    | ⟨o, ho, _, _, _, hno⟩ => ⟨o, ho, hno (by decide)⟩⟩

/-- C7: for every raw reading that is an `int` from which 2732 can be
    subtracted without overflow (every reading of at least 0 tenths of Kelvin
    is one), the Celsius value that `print_temp` prints, compares with 80 and
    stores is the quotient `(raw - 2732) / 10` of C, which truncates toward
    zero and is the floor for readings of at least 2732; the raw value 3032
    gives exactly 30. -/
theorem C7_celsius_conversion (p raw : Int) (h1 : INT_MIN + 2732 ≤ raw) (h2 : raw ≤ INT_MAX) :
    (print_temp p raw).temp = Int.tdiv (raw - 2732) 10 ∧
    (print_temp p raw).text = print_icon ICON_TEMP ++ (fmt_d (Int.tdiv (raw - 2732) 10) ++ " C") ∧
    (print_temp p raw).prev_temp = Int.tdiv (raw - 2732) 10 ∧
    ("High temperature" ∈ (print_temp p raw).msgs ↔ Int.tdiv (raw - 2732) 10 ≥ 80 ∧ p < 80) ∧
    (2732 ≤ raw → (print_temp p raw).temp = (raw - 2732) / 10) ∧
    (print_temp p 3032).temp = 30 ∧
    (print_temp p 3032).text = "^i(/usr/home/jlaffaye/.dzen/temp.xbm) 30 C" := by
  unfold INT_MIN at h1
  unfold INT_MAX at h2
  have e : TZ_KELVTOC raw = Int.tdiv (raw - 2732) 10 := by
    unfold TZ_KELVTOC TZ_ZEROC
    rw [wrapInt_of_bounds (by omega) (by omega)]
  have hm := high_temp_mem_iff p raw
  rw [e] at hm
  refine ⟨e, ?_, e, hm, ?_, ?_, ?_⟩
  · show print_icon ICON_TEMP ++ (fmt_d (TZ_KELVTOC raw) ++ " C") = _
    rw [e]
  · intro h
    show TZ_KELVTOC raw = _
    rw [e, Int.tdiv_eq_ediv (by omega) (by decide)]
  · show TZ_KELVTOC 3032 = 30
    decide
  · show print_icon ICON_TEMP ++ (fmt_d (TZ_KELVTOC 3032) ++ " C") = _
    decide

/-- C7 at the raw reading 3032. -/
theorem C7_celsius_conversion_witness : (print_temp 0 3032).temp = Int.tdiv (3032 - 2732) 10 :=
  (C7_celsius_conversion 0 3032 (by decide) (by decide)).1

/-- C8 as stated fails: while discharging, a raw life reading of 150 is
    printed and tested as 150, and a raw reading of -1 as -1 (which also shows
    "PLUG AC!"). -/
theorem C8_life_range_counterexample :
    ¬ (0 ≤ (print_bat 0 { state := 1, life := 150, time := 0 }).life ∧
        (print_bat 0 { state := 1, life := 150, time := 0 }).life ≤ 100) ∧
    (print_bat 0 { state := 1, life := 150, time := 0 }).text
      = "^i(/usr/home/jlaffaye/.dzen/power-bat2.xbm) 150%" ∧
    (print_bat 1 { state := 1, life := -1, time := 0 }).text
      = "^i(/usr/home/jlaffaye/.dzen/power-bat2.xbm) -1%" ∧
    (print_bat 1 { state := 1, life := -1, time := 0 }).msgs = ["PLUG AC!"] := by
  decide

/-- C8, amended: the life value that `print_bat` prints and tests is the
    raw reading itself while the state is Discharging or Charging and 100 in
    every other state; so it lies in [0,100] exactly when the state is neither
    of the two or the raw reading lies in [0,100]. -/
theorem C8_life_range_amended (p : Int) (r : BatReading) :
    (print_bat p r).life =
      (if r.state = STATE_DISCHARGING ∨ r.state = STATE_CHARGING then r.life else 100) ∧
    (∃ icon, (print_bat p r).text = icon ++ (fmt_d (print_bat p r).life ++ "%")) ∧
    ((0 ≤ (print_bat p r).life ∧ (print_bat p r).life ≤ 100) ↔
      (r.state = STATE_DISCHARGING ∨ r.state = STATE_CHARGING → 0 ≤ r.life ∧ r.life ≤ 100)) := by
  refine ⟨rfl, ⟨_, rfl⟩, ?_⟩
  show (0 ≤ (if r.state = STATE_DISCHARGING ∨ r.state = STATE_CHARGING then r.life else 100) ∧
    (if r.state = STATE_DISCHARGING ∨ r.state = STATE_CHARGING then r.life else 100) ≤ 100) ↔ _
  by_cases hs : r.state = STATE_DISCHARGING ∨ r.state = STATE_CHARGING
  · rw [if_pos hs]
    exact ⟨fun h _ => h, fun h => h hs⟩
  · rw [if_neg hs]
    exact ⟨fun _ h => absurd h hs, fun _ => by decide⟩

/-- C9: whenever the state is OnAC, whatever the raw life reading, the
    time reading and the previous state, `print_bat` reports the life 100,
    prints "100%" after the plugged-in icon and does not show "PLUG AC!". -/
theorem C9_on_ac_is_full (p life time : Int) :
    (print_bat p { state := STATE_AC, life := life, time := time }).life = 100 ∧
    (print_bat p { state := STATE_AC, life := life, time := time }).text
      = "^i(/usr/home/jlaffaye/.dzen/power-ac.xbm) 100%" ∧
    "PLUG AC!" ∉ (print_bat p { state := STATE_AC, life := life, time := time }).msgs := by
  refine ⟨rfl, ?_, ?_⟩
  · show print_icon ICON_POWER_AC ++ (fmt_d 100 ++ "%") = _
    decide
  · rw [plug_ac_mem_iff]
    show ¬ ((100 : Int) < 10)
    decide

/-- A pass of the loop completes exactly when its two calls that can stop
    the process return, and then its line is the five fields with
    `print_dot` between them and a newline at the end. -/
theorem cycle_of_ok (st : State) (s : Sample) (c : CpuResult) (v : VolResult)
    (hc : print_cpu_usage st.cpu s.cp_time = Except.ok c)
    (hv : print_volume st.mixer_fd s.mixer = Except.ok v) :
    cycle st s = Except.ok
      { state := { bat_prev_state := (print_bat st.bat_prev_state s.bat).prev_state
                   prev_temp := (print_temp st.prev_temp s.temp).prev_temp
                   cpu := c.state
                   mixer_fd := v.fd }
        msgs := (print_bat st.bat_prev_state s.bat).msgs ++ (print_temp st.prev_temp s.temp).msgs
        line := (print_bat st.bat_prev_state s.bat).text ++ print_dot
          ++ (print_temp st.prev_temp s.temp).text ++ print_dot ++ c.text ++ print_dot
          ++ v.text ++ print_dot ++ print_date s.tm ++ "\n" } := by
  unfold cycle
  simp only [hc, hv, ok_bind, pure_eq_ok]

theorem cycle_ok_inv (st : State) (s : Sample) (r : CycleResult)
    (h : cycle st s = Except.ok r) :
    ∃ c v, print_cpu_usage st.cpu s.cp_time = Except.ok c ∧
      print_volume st.mixer_fd s.mixer = Except.ok v := by
  unfold cycle at h
  cases hc : print_cpu_usage st.cpu s.cp_time with
  | error e =>
    rw [hc] at h
    simp only [error_bind] at h
    exact absurd h (by simp)
  | ok c =>
    cases hv : print_volume st.mixer_fd s.mixer with
    | error e =>
      rw [hc, hv] at h
      simp only [ok_bind, error_bind] at h
      exact absurd h (by simp)
    | ok v => exact ⟨c, v, rfl, rfl⟩

/-- C10: a pass of the loop emits a line exactly when `print_cpu_usage` and
    `print_volume` return, and the line is then the battery field, the
    temperature field, the CPU field, the volume field and the date, in this
    order, with the same text " ^p(5)^c(5)^p(5) " between neighbours (four
    times) and a newline at the end; for a battery discharging at 42 percent,
    22 C, 7 percent CPU, volume 0 and the local time 09:05 on 3 January 2024
    the line is the battery icon, "42%", the temperature icon, "22 C", the
    load icon, "07%", the mute icon, "0%" and the date, so separated. -/
theorem C10_line_layout (st : State) (s : Sample) :
    (∀ c v, print_cpu_usage st.cpu s.cp_time = Except.ok c →
      print_volume st.mixer_fd s.mixer = Except.ok v →
      ∃ r, cycle st s = Except.ok r ∧
        r.line = (print_bat st.bat_prev_state s.bat).text ++ print_dot
          ++ (print_temp st.prev_temp s.temp).text ++ print_dot ++ c.text ++ print_dot
          ++ v.text ++ print_dot ++ print_date s.tm ++ "\n") ∧
    (∀ r, cycle st s = Except.ok r →
      ∃ c v, print_cpu_usage st.cpu s.cp_time = Except.ok c ∧
        print_volume st.mixer_fd s.mixer = Except.ok v ∧
        r.line = (print_bat st.bat_prev_state s.bat).text ++ print_dot
          ++ (print_temp st.prev_temp s.temp).text ++ print_dot ++ c.text ++ print_dot
          ++ v.text ++ print_dot ++ print_date s.tm ++ "\n") ∧
    print_dot = " ^p(5)^c(5)^p(5) " ∧
    (cycle State.init
        { bat := { state := STATE_DISCHARGING, life := 42, time := 95 }
          temp := 2952
          cp_time := { user := 7, nice := 0, sys := 0, idle := 93 }
          mixer := { open_result := 3, ioctl_result := 0, vol := 0 }
          tm := { tm_min := 5, tm_hour := 9, tm_mday := 3, tm_mon := 0, tm_year := 124 } }).map
        CycleResult.line
      = Except.ok ("^i(/usr/home/jlaffaye/.dzen/power-bat2.xbm) 42%"
          ++ " ^p(5)^c(5)^p(5) " ++ "^i(/usr/home/jlaffaye/.dzen/temp.xbm) 22 C"
          ++ " ^p(5)^c(5)^p(5) " ++ "^i(/usr/home/jlaffaye/.dzen/load.xbm) 07%"
          ++ " ^p(5)^c(5)^p(5) " ++ "^i(/usr/home/jlaffaye/.dzen/vol-mute.xbm) 0%"
          ++ " ^p(5)^c(5)^p(5) " ++ "03-01-2024  9:05" ++ "\n") := by
  refine ⟨?_, ?_, by decide, by decide⟩
  · intro c v hc hv
    exact ⟨_, cycle_of_ok st s c v hc hv, rfl⟩
  · intro r h
    obtain ⟨c, v, hc, hv⟩ := cycle_ok_inv st s r h
    refine ⟨c, v, hc, hv, ?_⟩
    rw [cycle_of_ok st s c v hc hv] at h
    rw [← Except.ok.inj h]

/-- C10 at the first pass of its scenario. -/
theorem C10_line_layout_witness :
    ∃ r, cycle State.init
        { bat := { state := 1, life := 42, time := 95 }
          temp := 2952
          cp_time := { user := 7, nice := 0, sys := 0, idle := 93 }
          mixer := { open_result := 3, ioctl_result := 0, vol := 0 }
          tm := { tm_min := 5, tm_hour := 9, tm_mday := 3, tm_mon := 0, tm_year := 124 } }
        = Except.ok r ∧
      r.line = "^i(/usr/home/jlaffaye/.dzen/power-bat2.xbm) 42%" ++ print_dot
          ++ "^i(/usr/home/jlaffaye/.dzen/temp.xbm) 22 C" ++ print_dot
          ++ "^i(/usr/home/jlaffaye/.dzen/load.xbm) 07%" ++ print_dot
          ++ "^i(/usr/home/jlaffaye/.dzen/vol-mute.xbm) 0%" ++ print_dot
          ++ "03-01-2024  9:05" ++ "\n" :=
  (C10_line_layout State.init
        { bat := { state := 1, life := 42, time := 95 }
          temp := 2952
          cp_time := { user := 7, nice := 0, sys := 0, idle := 93 }
          mixer := { open_result := 3, ioctl_result := 0, vol := 0 }
          tm := { tm_min := 5, tm_hour := 9, tm_mday := 3, tm_mon := 0, tm_year := 124 } }).1
    { state := { prev_total := 100, prev_idle := 93 }, diff_usage := 7
      text := "^i(/usr/home/jlaffaye/.dzen/load.xbm) 07%" }
    { fd := 3, vol := 0, text := "^i(/usr/home/jlaffaye/.dzen/vol-mute.xbm) 0%" }
    (by decide) (by decide)

/-! ## Failing reads -/

/-- A failing mixer call makes `print_volume` end the process with status 1. -/
theorem print_volume_of_failure (fd : Int) (env : MixerEnv)
    (h : env.ioctl_result = -1 ∨ (fd = 0 ∧ env.open_result < 0)) :
    ∃ msg, print_volume fd env = Except.error (Halt.exit 1 msg) := by
  unfold print_volume
  by_cases hfd : fd = 0
  · by_cases hop : env.open_result < 0
    · exact ⟨"open(/dev/mixer)", by simp only [hfd, hop, if_true, error_bind]⟩
    · have hio : env.ioctl_result = -1 := by
        rcases h with h | h
        · exact h
        · exact absurd h.2 hop
      exact ⟨"ioctl(mixer)", by simp only [hfd, hop, hio, if_true, if_false, ok_bind]⟩
  · have hio : env.ioctl_result = -1 := by
      rcases h with h | h
      · exact h
      · exact absurd h.1 hfd
    exact ⟨"ioctl(mixer)", by simp only [hfd, hio, if_true, if_false, ok_bind]⟩

/-- When the mixer calls succeed, `print_volume` returns the masked volume
    and the icon chosen from it. -/
theorem print_volume_of_success (fd : Int) (env : MixerEnv)
    (hopen : fd = 0 → 0 ≤ env.open_result) (hioctl : env.ioctl_result ≠ -1) :
    print_volume fd env = Except.ok
      { fd := if fd = 0 then env.open_result else fd
        vol := Int.land env.vol 127
        text := (if Int.land env.vol 127 > 0 then print_icon ICON_VOLUME_HIGH
                 else print_icon ICON_VOLUME_MUTE) ++ (fmt_d (Int.land env.vol 127) ++ "%") } := by
  unfold print_volume
  by_cases hfd : fd = 0
  · have hop : ¬ env.open_result < 0 := not_lt.mpr (hopen hfd)
    simp only [hfd, hop, hioctl, if_true, if_false, ok_bind, pure_eq_ok]
  · simp only [hfd, hioctl, if_false, ok_bind, pure_eq_ok]

theorem cycle_of_volume_error (st : State) (s : Sample) (c : CpuResult) (e : Halt)
    (hc : print_cpu_usage st.cpu s.cp_time = Except.ok c)
    (hv : print_volume st.mixer_fd s.mixer = Except.error e) :
    cycle st s = Except.error e := by
  unfold cycle
  simp only [hc, hv, ok_bind, error_bind]

theorem cycle_of_cpu_error (st : State) (s : Sample) (e : Halt)
    (hc : print_cpu_usage st.cpu s.cp_time = Except.error e) :
    cycle st s = Except.error e := by
  unfold cycle
  simp only [hc, error_bind]

theorem main_loop_of_error (st : State) (s : Sample) (rest : List Sample) (e : Halt)
    (h : cycle st s = Except.error e) :
    main_loop st (s :: rest) = (flushed_on e (buffered_at_stop st s), some e) := by
  show after_pass (cycle st s) (buffered_at_stop st s) (fun st1 => main_loop st1 rest) = _
  rw [h]
  rfl

theorem main_loop_of_ok (st : State) (s : Sample) (rest : List Sample) (r : CycleResult)
    (h : cycle st s = Except.ok r) :
    main_loop st (s :: rest)
      = (r.line :: (main_loop r.state rest).1, (main_loop r.state rest).2) := by
  show after_pass (cycle st s) (buffered_at_stop st s) (fun st1 => main_loop st1 rest) = _
  rw [h]
  rfl

/-- When `print_cpu_usage` has returned, the buffer of a stopped pass holds
    the battery, temperature and CPU fields, a separator after each. -/
theorem buffered_at_stop_of_cpu_ok (st : State) (s : Sample) (c : CpuResult)
    (hc : print_cpu_usage st.cpu s.cp_time = Except.ok c) :
    buffered_at_stop st s = (print_bat st.bat_prev_state s.bat).text ++ print_dot
      ++ (print_temp st.prev_temp s.temp).text ++ print_dot ++ c.text ++ print_dot := by
  unfold buffered_at_stop
  simp only [hc]

/-- The call `print_cpu_usage` returns exactly when the division of line 165
    does not trap. -/
theorem print_cpu_usage_returns_iff (st : CpuState) (cp_time : CpTime) :
    (∃ c, print_cpu_usage st cp_time = Except.ok c) ↔ ¬ usage_division_traps st cp_time := by
  constructor
  · rintro ⟨c, hc⟩ htrap
    have hcd : cdiv (wrapInt (1000 * wrapInt (diff_total st cp_time - diff_idle st cp_time)))
        (diff_total st cp_time) = Except.error Halt.fault := by
      unfold cdiv
      by_cases h0 : diff_total st cp_time = 0
      · rw [if_pos h0]
      · rcases htrap with h | h
        · exact absurd h h0
        · rw [if_neg h0, if_pos h]
    unfold print_cpu_usage at hc
    dsimp only at hc
    rw [hcd] at hc
    exact Except.noConfusion hc
  · intro hno
    have h0 : ¬ diff_total st cp_time = 0 := fun h => hno (Or.inl h)
    have h1 : ¬ (wrapInt (1000 * wrapInt (diff_total st cp_time - diff_idle st cp_time))
        = INT_MIN ∧ diff_total st cp_time = -1) := fun h => hno (Or.inr h)
    have hcd : cdiv (wrapInt (1000 * wrapInt (diff_total st cp_time - diff_idle st cp_time)))
        (diff_total st cp_time) = Except.ok (Int.tdiv
          (wrapInt (1000 * wrapInt (diff_total st cp_time - diff_idle st cp_time)))
          (diff_total st cp_time)) := by
      unfold cdiv
      rw [if_neg h0, if_neg h1]
    refine ⟨{ state := cpuStateOf cp_time
              diff_usage := Int.tdiv (wrapInt (Int.tdiv
                (wrapInt (1000 * wrapInt (diff_total st cp_time - diff_idle st cp_time)))
                (diff_total st cp_time) + 5)) 10
              text := print_icon ICON_LOAD ++ (fmt_02d (Int.tdiv (wrapInt (Int.tdiv
                (wrapInt (1000 * wrapInt (diff_total st cp_time - diff_idle st cp_time)))
                (diff_total st cp_time) + 5)) 10) ++ "%") }, ?_⟩
    unfold print_cpu_usage
    dsimp only
    rw [hcd]
    rfl

/-- C11 as stated fails for the mixer read: in a first pass whose `ioctl`
    on the mixer returns -1 while every other read is fine, `print_volume`
    calls `err (1, "ioctl(mixer)")`; the process ends in that pass, what
    reaches the pipe is the unfinished text of the battery, temperature and
    CPU fields (no volume field, no date, no newline), and the loop does not
    reach the next sample. -/
theorem C11_mixer_failure_counterexample :
    cycle State.init
        { bat := { state := 0, life := 100, time := 0 }
          temp := 3032
          cp_time := { user := 7, nice := 0, sys := 0, idle := 93 }
          mixer := { open_result := 3, ioctl_result := -1, vol := 0 }
          tm := { tm_min := 5, tm_hour := 9, tm_mday := 3, tm_mon := 0, tm_year := 124 } }
      = Except.error (Halt.exit 1 "ioctl(mixer)") ∧
    main_loop State.init
        [{ bat := { state := 0, life := 100, time := 0 }
           temp := 3032
           cp_time := { user := 7, nice := 0, sys := 0, idle := 93 }
           mixer := { open_result := 3, ioctl_result := -1, vol := 0 }
           tm := { tm_min := 5, tm_hour := 9, tm_mday := 3, tm_mon := 0, tm_year := 124 } },
         { bat := { state := 0, life := 100, time := 0 }
           temp := 3032
           cp_time := { user := 14, nice := 0, sys := 0, idle := 186 }
           mixer := { open_result := 3, ioctl_result := 0, vol := 0 }
           tm := { tm_min := 5, tm_hour := 9, tm_mday := 3, tm_mon := 0, tm_year := 124 } }]
      = (["^i(/usr/home/jlaffaye/.dzen/power-ac.xbm) 100%" ++ " ^p(5)^c(5)^p(5) "
            ++ "^i(/usr/home/jlaffaye/.dzen/temp.xbm) 30 C" ++ " ^p(5)^c(5)^p(5) "
            ++ "^i(/usr/home/jlaffaye/.dzen/load.xbm) 07%" ++ " ^p(5)^c(5)^p(5) "],
         some (Halt.exit 1 "ioctl(mixer)")) := by
  decide

/-- C11, amended: the results of the battery, temperature and CPU-tick
    reads are never checked, so whatever values these reads leave behind (a
    failed read included) the pass completes, emits its line and the loop goes
    on to the next sample, provided the division of line 165 does not trap on
    the CPU values and the mixer calls succeed; a failing mixer read (`open`
    below 0 on first use, or `ioctl` equal to -1) stops the process in that
    pass, and when `print_cpu_usage` has returned the stop is `err` with
    status 1 and the pipe receives the battery, temperature and CPU fields
    already printed, each with its separator, and nothing more: no volume
    field, no date, no newline, and no later pass. -/
theorem C11_read_failures (st : State) (s : Sample) (rest : List Sample) :
    (∀ (bat : BatReading) (temp : Int) (cp_time : CpTime),
      ¬ usage_division_traps st.cpu cp_time →
      (st.mixer_fd = 0 → 0 ≤ s.mixer.open_result) → s.mixer.ioctl_result ≠ -1 →
      ∃ r, cycle st { s with bat := bat, temp := temp, cp_time := cp_time } = Except.ok r ∧
        main_loop st ({ s with bat := bat, temp := temp, cp_time := cp_time } :: rest)
          = (r.line :: (main_loop r.state rest).1, (main_loop r.state rest).2)) ∧
    (∀ c, print_cpu_usage st.cpu s.cp_time = Except.ok c →
      s.mixer.ioctl_result = -1 ∨ (st.mixer_fd = 0 ∧ s.mixer.open_result < 0) →
      ∃ msg, cycle st s = Except.error (Halt.exit 1 msg) ∧
        main_loop st (s :: rest)
          = ([(print_bat st.bat_prev_state s.bat).text ++ print_dot
                ++ (print_temp st.prev_temp s.temp).text ++ print_dot ++ c.text ++ print_dot],
             some (Halt.exit 1 msg))) ∧
    (s.mixer.ioctl_result = -1 ∨ (st.mixer_fd = 0 ∧ s.mixer.open_result < 0) →
      ∃ e, cycle st s = Except.error e ∧
        main_loop st (s :: rest) = (flushed_on e (buffered_at_stop st s), some e)) := by
  refine ⟨?_, ?_, ?_⟩
  · intro bat temp cp_time hno hopen hioctl
    obtain ⟨c, hc⟩ := (print_cpu_usage_returns_iff st.cpu cp_time).2 hno
    have hv := print_volume_of_success st.mixer_fd s.mixer hopen hioctl
    have h := cycle_of_ok st { s with bat := bat, temp := temp, cp_time := cp_time } c _ hc hv
    exact ⟨_, h, main_loop_of_ok _ _ _ _ h⟩
  · intro c hc hfail
    obtain ⟨msg, hmsg⟩ := print_volume_of_failure st.mixer_fd s.mixer hfail
    have h := cycle_of_volume_error st s c _ hc hmsg
    refine ⟨msg, h, ?_⟩
    rw [main_loop_of_error _ _ _ _ h, buffered_at_stop_of_cpu_ok st s c hc]
    rfl
  · intro hfail
    obtain ⟨msg, hmsg⟩ := print_volume_of_failure st.mixer_fd s.mixer hfail
    cases hc : print_cpu_usage st.cpu s.cp_time with
    | error e =>
      have h := cycle_of_cpu_error st s e hc
      exact ⟨e, h, main_loop_of_error _ _ _ _ h⟩
    | ok c =>
      have h := cycle_of_volume_error st s c _ hc hmsg
      exact ⟨_, h, main_loop_of_error _ _ _ _ h⟩

/-- C11 (amended) at a first pass whose battery, temperature and CPU-tick
    variables all hold arbitrary values, and at a first pass whose mixer
    `ioctl` fails. -/
theorem C11_read_failures_witness :
    (∃ r, cycle State.init
        { bat := { state := -559038737, life := 12345, time := -1 }
          temp := -7
          cp_time := { user := -5, nice := 123456789012, sys := 7, idle := -99 }
          mixer := { open_result := 3, ioctl_result := 0, vol := 0 }
          tm := { tm_min := 5, tm_hour := 9, tm_mday := 3, tm_mon := 0, tm_year := 124 } }
        = Except.ok r) ∧
    (∃ msg, main_loop State.init
        [{ bat := { state := 0, life := 100, time := 0 }
           temp := 3032
           cp_time := { user := 7, nice := 0, sys := 0, idle := 93 }
           mixer := { open_result := 3, ioctl_result := -1, vol := 0 }
           tm := { tm_min := 5, tm_hour := 9, tm_mday := 3, tm_mon := 0, tm_year := 124 } }]
        = (["^i(/usr/home/jlaffaye/.dzen/power-ac.xbm) 100%" ++ print_dot
              ++ "^i(/usr/home/jlaffaye/.dzen/temp.xbm) 30 C" ++ print_dot
              ++ "^i(/usr/home/jlaffaye/.dzen/load.xbm) 07%" ++ print_dot],
           some (Halt.exit 1 msg))) :=
  ⟨match (C11_read_failures State.init
        { bat := { state := 0, life := 100, time := 0 }
          temp := 3032
          cp_time := { user := 0, nice := 0, sys := 0, idle := 0 }
          mixer := { open_result := 3, ioctl_result := 0, vol := 0 }
          tm := { tm_min := 5, tm_hour := 9, tm_mday := 3, tm_mon := 0, tm_year := 124 } }
        []).1 { state := -559038737, life := 12345, time := -1 } (-7)
        { user := -5, nice := 123456789012, sys := 7, idle := -99 }
        (by decide) (by decide) (by decide) with
    | ⟨r, hr, _⟩ => ⟨r, hr⟩,
   match (C11_read_failures State.init
        { bat := { state := 0, life := 100, time := 0 }
          temp := 3032
          cp_time := { user := 7, nice := 0, sys := 0, idle := 93 }
          mixer := { open_result := 3, ioctl_result := -1, vol := 0 }
          tm := { tm_min := 5, tm_hour := 9, tm_mday := 3, tm_mon := 0, tm_year := 124 } }
        []).2.1
        { state := { prev_total := 100, prev_idle := 93 }, diff_usage := 7
          text := "^i(/usr/home/jlaffaye/.dzen/load.xbm) 07%" }
        (by decide) (Or.inl (by decide)) with
    | ⟨msg, _, hm⟩ => ⟨msg, hm⟩⟩

/-! ## Fields of the line -/

theorem print_bat_text (p : Int) (r : BatReading) :
    (print_bat p r).text =
      (if r.state = STATE_AC ∨ r.state = STATE_CHARGING then print_icon ICON_POWER_AC
       else if r.state = STATE_DISCHARGING then print_icon ICON_POWER_BAT
       else "[?] ") ++ (fmt_d (print_bat p r).life ++ "%") := rfl

theorem print_bat_life (p : Int) (r : BatReading) :
    (print_bat p r).life =
      (if r.state = STATE_DISCHARGING ∨ r.state = STATE_CHARGING then r.life else 100) := rfl

/-- C12: the icon of the battery field depends on the current state only:
    OnAC and Charging give the plugged-in icon, Discharging gives the battery
    icon, every other state code gives the marker "[?]" and no icon (the
    whole field is then "[?] 100%"); the icon or marker is always followed by
    the life value and "%". -/
theorem C12_battery_icon (p : Int) (r : BatReading) :
    (r.state = STATE_AC ∨ r.state = STATE_CHARGING →
      (print_bat p r).text = "^i(/usr/home/jlaffaye/.dzen/power-ac.xbm) "
        ++ (fmt_d (print_bat p r).life ++ "%")) ∧
    (r.state = STATE_DISCHARGING →
      (print_bat p r).text = "^i(/usr/home/jlaffaye/.dzen/power-bat2.xbm) "
        ++ (fmt_d (print_bat p r).life ++ "%")) ∧
    (r.state ≠ STATE_AC → r.state ≠ STATE_CHARGING → r.state ≠ STATE_DISCHARGING →
      (print_bat p r).text = "[?] " ++ (fmt_d (print_bat p r).life ++ "%") ∧
      (print_bat p r).text = "[?] 100%") := by
  have eac : print_icon ICON_POWER_AC = "^i(/usr/home/jlaffaye/.dzen/power-ac.xbm) " := by
    decide
  have ebat : print_icon ICON_POWER_BAT = "^i(/usr/home/jlaffaye/.dzen/power-bat2.xbm) " := by
    decide
  refine ⟨?_, ?_, ?_⟩
  · intro h
    rw [print_bat_text, if_pos h, eac]
  · intro h
    have h2 : ¬ (r.state = STATE_AC ∨ r.state = STATE_CHARGING) := by
      rw [h]
      decide
    rw [print_bat_text, if_neg h2, if_pos h, ebat]
  · intro h0 h6 h1
    have h2 : ¬ (r.state = STATE_AC ∨ r.state = STATE_CHARGING) := fun h =>
      h.elim h0 h6
    have h3 : ¬ (r.state = STATE_DISCHARGING ∨ r.state = STATE_CHARGING) := fun h =>
      h.elim h1 h6
    have hl : (print_bat p r).life = 100 := by
      rw [print_bat_life, if_neg h3]
    refine ⟨?_, ?_⟩
    · rw [print_bat_text, if_neg h2, if_neg h1]
    · rw [print_bat_text, if_neg h2, if_neg h1, hl]
      decide

/-- C12 while charging at 57 percent, while discharging at 42 percent and in
    the state code 2. -/
theorem C12_battery_icon_witness :
    (print_bat 0 { state := 6, life := 57, time := 0 }).text
      = "^i(/usr/home/jlaffaye/.dzen/power-ac.xbm) "
        ++ (fmt_d (print_bat 0 { state := 6, life := 57, time := 0 }).life ++ "%") ∧
    (print_bat 0 { state := 1, life := 42, time := 0 }).text
      = "^i(/usr/home/jlaffaye/.dzen/power-bat2.xbm) "
        ++ (fmt_d (print_bat 0 { state := 1, life := 42, time := 0 }).life ++ "%") ∧
    (print_bat 0 { state := 2, life := 42, time := 0 }).text = "[?] 100%" :=
  ⟨(C12_battery_icon 0 { state := 6, life := 57, time := 0 }).1 (Or.inr (by decide)),
   (C12_battery_icon 0 { state := 1, life := 42, time := 0 }).2.1 (by decide),
   ((C12_battery_icon 0 { state := 2, life := 42, time := 0 }).2.2 (by decide) (by decide)
      (by decide)).2⟩

/-- The two volume icons are different texts, whatever follows them. -/
theorem volume_icons_differ (a b : String) :
    print_icon ICON_VOLUME_MUTE ++ a ≠ print_icon ICON_VOLUME_HIGH ++ b := by
  intro h
  have h2 := congrArg (fun x : String => x.data.take 33) h
  simp only [String.data_append] at h2
  rw [List.take_append_of_le_length (by decide),
    List.take_append_of_le_length (by decide)] at h2
  exact absurd h2 (by decide)

/-- A call of `print_volume` that returns had successful mixer calls. -/
theorem print_volume_ok_inv (fd : Int) (env : MixerEnv) (v : VolResult)
    (h : print_volume fd env = Except.ok v) :
    (fd = 0 → 0 ≤ env.open_result) ∧ env.ioctl_result ≠ -1 := by
  constructor
  · intro hfd
    by_contra hneg
    obtain ⟨msg, hmsg⟩ := print_volume_of_failure fd env (Or.inr ⟨hfd, not_le.mp hneg⟩)
    rw [hmsg] at h
    exact Except.noConfusion h
  · intro hio
    obtain ⟨msg, hmsg⟩ := print_volume_of_failure fd env (Or.inl hio)
    rw [hmsg] at h
    exact Except.noConfusion h

/-- C13: when the mixer calls succeed, whatever the raw value `vol` (of any
    sign or size), the level `print_volume` reports is the raw value masked
    with 0x7f, which is its residue modulo 128 and lies in [0,127]; the field
    is the mute icon followed by the level and "%" if and only if the level
    is 0, and the high-volume icon followed by them if and only if it is
    above 0. -/
theorem C13_volume_mask (fd : Int) (env : MixerEnv)
    (hopen : fd = 0 → 0 ≤ env.open_result) (hioctl : env.ioctl_result ≠ -1) :
    ∃ v, print_volume fd env = Except.ok v ∧
      v.vol = Int.land env.vol 127 ∧ v.vol = env.vol % 128 ∧ 0 ≤ v.vol ∧ v.vol ≤ 127 ∧
      (v.text = print_icon ICON_VOLUME_MUTE ++ (fmt_d v.vol ++ "%") ↔ v.vol = 0) ∧
      (v.text = print_icon ICON_VOLUME_HIGH ++ (fmt_d v.vol ++ "%") ↔ v.vol > 0) := by
  refine ⟨_, print_volume_of_success fd env hopen hioctl, rfl, land_127_eq_emod _, ?_, ?_, ?_, ?_⟩
  · show 0 ≤ Int.land env.vol 127
    rw [land_127_eq_emod]
    omega
  · show Int.land env.vol 127 ≤ 127
    rw [land_127_eq_emod]
    omega
  · show ((if Int.land env.vol 127 > 0 then print_icon ICON_VOLUME_HIGH
        else print_icon ICON_VOLUME_MUTE) ++ (fmt_d (Int.land env.vol 127) ++ "%")
        = print_icon ICON_VOLUME_MUTE ++ (fmt_d (Int.land env.vol 127) ++ "%"))
        ↔ Int.land env.vol 127 = 0
    have hnn : 0 ≤ Int.land env.vol 127 := by
      rw [land_127_eq_emod]
      omega
    by_cases hpos : Int.land env.vol 127 > 0
    · rw [if_pos hpos]
      constructor
      · intro h
        exact absurd h.symm (volume_icons_differ _ _)
      · intro h
        omega
    · rw [if_neg hpos]
      constructor
      · intro _
        omega
      · intro _
        rfl
  · show ((if Int.land env.vol 127 > 0 then print_icon ICON_VOLUME_HIGH
        else print_icon ICON_VOLUME_MUTE) ++ (fmt_d (Int.land env.vol 127) ++ "%")
        = print_icon ICON_VOLUME_HIGH ++ (fmt_d (Int.land env.vol 127) ++ "%"))
        ↔ Int.land env.vol 127 > 0
    by_cases hpos : Int.land env.vol 127 > 0
    · rw [if_pos hpos]
      exact ⟨fun _ => hpos, fun _ => rfl⟩
    · rw [if_neg hpos]
      constructor
      · intro h
        exact absurd h (volume_icons_differ _ _)
      · intro h
        exact absurd h hpos

/-- C13 at the raw value -1 (all bits set), reported as 127. -/
theorem C13_volume_mask_witness :
    ∃ v, print_volume 3 { open_result := 3, ioctl_result := 0, vol := -1 } = Except.ok v ∧
      v.vol = 127 :=
  match C13_volume_mask 3 { open_result := 3, ioctl_result := 0, vol := -1 }
      (by decide) (by decide) with
  | ⟨v, hv, _, hmod, _⟩ => ⟨v, hv, hmod.trans (by decide)⟩

/-- C14 as stated fails at the usage 100, which the loop produces when no
    idle tick elapsed between two samples: the conversion `%02d` gives a
    minimum width, and 100 is written with three digits. -/
theorem C14_three_digits_counterexample :
    (print_cpu_usage CpuState.init { user := 100, nice := 0, sys := 0, idle := 0 }).map
        CpuResult.diff_usage = Except.ok 100 ∧
    (print_cpu_usage CpuState.init { user := 100, nice := 0, sys := 0, idle := 0 }).map
        CpuResult.text = Except.ok "^i(/usr/home/jlaffaye/.dzen/load.xbm) 100%" ∧
    fmt_02d 100 = "100" ∧ (fmt_02d 100).length ≠ 2 := by
  decide

/-- C14, amended: for two consecutive CPU samples without overflow and
    with `diff_total > 0`, the CPU field is the load icon, the usage under
    the conversion `%02d` and "%": exactly two decimal digits, zero-padded
    on the left, for every usage from 0 to 99, and the three digits "100" for
    the usage 100. -/
theorem C14_cpu_field_digits (prev cur : CpTime) (h : SamplePair prev cur)
    (hpos : 0 < diff_total (cpuStateOf prev) cur) :
    ∃ r, print_cpu_usage (cpuStateOf prev) cur = Except.ok r ∧
      0 ≤ r.diff_usage ∧ r.diff_usage ≤ 100 ∧
      r.text = print_icon ICON_LOAD ++ (fmt_02d r.diff_usage ++ "%") ∧
      (r.diff_usage ≤ 99 →
        r.text = "^i(/usr/home/jlaffaye/.dzen/load.xbm) " ++ (two_digits r.diff_usage ++ "%")) ∧
      (r.diff_usage = 100 → r.text = "^i(/usr/home/jlaffaye/.dzen/load.xbm) 100%") := by
  rw [(diffs_of_pair h).1] at hpos
  refine ⟨_, print_cpu_usage_of_pair h hpos, ?_⟩
  have h0 := h
  obtain ⟨⟨hu0, hu⟩, ⟨hn0, hn⟩, ⟨hs0, hs⟩, ⟨hi0, hi⟩, -, -⟩ := h0
  have hbusy : 0 ≤ deltaTotal prev cur - deltaIdle prev cur := by
    unfold deltaTotal deltaIdle tickTotal
    omega
  have hle : deltaTotal prev cur - deltaIdle prev cur ≤ deltaTotal prev cur := by
    unfold deltaIdle
    omega
  obtain ⟨hq0, hq1⟩ := usage_quotient_bounds hbusy hle hpos
  have eicon : print_icon ICON_LOAD = "^i(/usr/home/jlaffaye/.dzen/load.xbm) " := by decide
  generalize hu : (1000 * (deltaTotal prev cur - deltaIdle prev cur) / deltaTotal prev cur + 5)
    / 10 = usage
  have hu0 : 0 ≤ usage := by omega
  have hu1 : usage ≤ 100 := by omega
  refine ⟨hu0, hu1, rfl, ?_, ?_⟩
  · intro h99
    have h99b : usage ≤ 99 := h99
    show print_icon ICON_LOAD ++ (fmt_02d usage ++ "%") = _
    rw [eicon, fmt_02d_two_digits usage hu0 h99b]
  · intro h100
    have h100b : usage = 100 := h100
    show print_icon ICON_LOAD ++ (fmt_02d usage ++ "%") = _
    rw [h100b]
    decide

/-- C14 (amended) at the samples {100,0,50,850} then {120,0,60,870}: the
    field shows 60 with two digits. -/
theorem C14_cpu_field_digits_witness :
    ∃ r, print_cpu_usage (cpuStateOf { user := 100, nice := 0, sys := 50, idle := 850 })
        { user := 120, nice := 0, sys := 60, idle := 870 } = Except.ok r ∧
      r.text = print_icon ICON_LOAD ++ (fmt_02d r.diff_usage ++ "%") :=
  match C14_cpu_field_digits { user := 100, nice := 0, sys := 50, idle := 850 }
      { user := 120, nice := 0, sys := 60, idle := 870 } (by decide) (by decide) with
  | ⟨r, hr, _, _, ht, _⟩ => ⟨r, hr, ht⟩

/-- C15 as stated fails for the hours 0 to 9: the format uses `%k`, which
    pads the hour with a blank, so 09:05 on 3 January 2024 is written
    "03-01-2024  9:05" and not "03-01-2024 09:05". -/
theorem C15_hour_padding_counterexample :
    print_date { tm_min := 5, tm_hour := 9, tm_mday := 3, tm_mon := 0, tm_year := 124 }
      = "03-01-2024  9:05" ∧
    print_date { tm_min := 5, tm_hour := 9, tm_mday := 3, tm_mon := 0, tm_year := 124 }
      ≠ "03-01-2024 09:05" := by
  decide

/-- C15, amended: for every local time whose year has four digits,
    `print_date` writes sixteen characters: the day with two digits, "-", the
    month with two digits, "-", the year with four digits, one blank, the
    hour of the 24-hour clock in two characters with a blank before a single
    digit, ":", the minute with two digits; 09:05 on 3 January 2024 is
    written "03-01-2024  9:05". -/
theorem C15_date_format (tm : Tm) (h : TmInRange tm) :
    print_date tm = two_digits tm.tm_mday ++ "-" ++ two_digits (tm.tm_mon + 1) ++ "-"
        ++ four_digits (tm.tm_year + 1900) ++ " " ++ blank_padded tm.tm_hour ++ ":"
        ++ two_digits tm.tm_min ∧
    (print_date tm).length = 16 ∧
    (10 ≤ tm.tm_hour → blank_padded tm.tm_hour = two_digits tm.tm_hour) ∧
    (tm.tm_hour < 10 →
      blank_padded tm.tm_hour = " " ++ String.mk [Nat.digitChar tm.tm_hour.toNat]) ∧
    print_date { tm_min := 5, tm_hour := 9, tm_mday := 3, tm_mon := 0, tm_year := 124 }
      = "03-01-2024  9:05" := by
  obtain ⟨⟨hm0, hm1⟩, ⟨hh0, hh1⟩, ⟨hd0, hd1⟩, ⟨hn0, hn1⟩, ⟨hy0, hy1⟩⟩ := h
  have e : print_date tm = two_digits tm.tm_mday ++ "-" ++ two_digits (tm.tm_mon + 1) ++ "-"
        ++ four_digits (tm.tm_year + 1900) ++ " " ++ blank_padded tm.tm_hour ++ ":"
        ++ two_digits tm.tm_min := by
    unfold print_date
    rw [fmt_02d_two_digits _ (by omega) (by omega), fmt_02d_two_digits _ (by omega) (by omega),
      fmt_d_four_digits _ hy0 hy1, fmt_2d_blank_padded _ hh0 (by omega),
      fmt_02d_two_digits _ hm0 (by omega)]
  have hb : (blank_padded tm.tm_hour).length = 2 := by
    unfold blank_padded
    split_ifs <;> rfl
  refine ⟨e, ?_, ?_, ?_, by decide⟩
  · rw [e]
    simp only [String.length_append, hb]
    rfl
  · intro h10
    unfold blank_padded
    rw [if_neg (by omega)]
  · intro h10
    unfold blank_padded
    rw [if_pos h10]
    rfl

/-- C15 (amended) at 23:59 on 31 December 1999. -/
theorem C15_date_format_witness :
    print_date { tm_min := 59, tm_hour := 23, tm_mday := 31, tm_mon := 11, tm_year := 99 }
      = "31-12-1999 23:59" :=
  ((C15_date_format { tm_min := 59, tm_hour := 23, tm_mday := 31, tm_mon := 11, tm_year := 99 }
    (by decide)).1).trans (by decide)

/-! ## Stored state and purity of the line -/

/-- A call of `print_cpu_usage` that returns has stored the current sample
    and written the usage with `%02d`. -/
theorem print_cpu_usage_ok_inv (st : CpuState) (cp_time : CpTime) (c : CpuResult)
    (h : print_cpu_usage st cp_time = Except.ok c) :
    c.state = cpuStateOf cp_time ∧
    c.text = print_icon ICON_LOAD ++ (fmt_02d c.diff_usage ++ "%") := by
  unfold print_cpu_usage at h
  dsimp only at h
  cases hq : cdiv (wrapInt (1000 * wrapInt (diff_total st cp_time - diff_idle st cp_time)))
      (diff_total st cp_time) with
  | error e =>
    rw [hq] at h
    exact Except.noConfusion h
  | ok q =>
    rw [hq] at h
    simp only [ok_bind, pure_eq_ok] at h
    rw [← Except.ok.inj h]
    exact ⟨rfl, rfl⟩

/-- A call of `print_volume` that returns wrote the icon chosen from the
    masked volume, the masked volume and "%". -/
theorem print_volume_text (fd : Int) (env : MixerEnv) (v : VolResult)
    (h : print_volume fd env = Except.ok v) :
    v.text = (if v.vol > 0 then print_icon ICON_VOLUME_HIGH
              else print_icon ICON_VOLUME_MUTE) ++ (fmt_d v.vol ++ "%") := by
  obtain ⟨hopen, hioctl⟩ := print_volume_ok_inv fd env v h
  rw [print_volume_of_success fd env hopen hioctl] at h
  rw [← Except.ok.inj h]

theorem print_temp_text (p raw : Int) :
    (print_temp p raw).text = print_icon ICON_TEMP ++ (fmt_d (TZ_KELVTOC raw) ++ " C") := rfl

/-- C16: after every pass that completes (and a pass completes whenever
    `print_cpu_usage` and `print_volume` return), whatever messages were
    shown in it, the stored previous battery state is the current state, the
    stored previous temperature is the current Celsius value, and the stored
    previous CPU total and idle are the current total and idle ticks (as
    `int`s, equal to the exact tick counts when these do not overflow). -/
theorem C16_previous_state_overwritten (st : State) (s : Sample) (c : CpuResult)
    (v : VolResult) (hc : print_cpu_usage st.cpu s.cp_time = Except.ok c)
    (hv : print_volume st.mixer_fd s.mixer = Except.ok v) :
    ∃ r, cycle st s = Except.ok r ∧
      r.msgs = (print_bat st.bat_prev_state s.bat).msgs ++ (print_temp st.prev_temp s.temp).msgs ∧
      r.state.bat_prev_state = s.bat.state ∧
      r.state.prev_temp = TZ_KELVTOC s.temp ∧
      r.state.prev_temp = (print_temp st.prev_temp s.temp).temp ∧
      r.state.cpu.prev_total = curr_total s.cp_time ∧
      r.state.cpu.prev_idle = curr_idle s.cp_time ∧
      (SamplePair s.cp_time s.cp_time →
        r.state.cpu.prev_total = tickTotal s.cp_time ∧
        r.state.cpu.prev_idle = s.cp_time.idle) := by
  obtain ⟨hstate, -⟩ := print_cpu_usage_ok_inv st.cpu s.cp_time c hc
  refine ⟨_, cycle_of_ok st s c v hc hv, rfl, rfl, rfl, rfl, ?_, ?_, ?_⟩
  · show c.state.prev_total = _
    rw [hstate]
    rfl
  · show c.state.prev_idle = _
    rw [hstate]
    rfl
  · intro hp
    constructor
    · show c.state.prev_total = _
      rw [hstate]
      exact (curr_total_of_pair hp).2
    · show c.state.prev_idle = _
      rw [hstate]
      exact (curr_idle_of_pair hp).2

/-- C16 at a first pass that shows "ON BATTERY" and "High temperature". -/
theorem C16_previous_state_overwritten_witness :
    ∃ r, cycle State.init
        { bat := { state := 1, life := 42, time := 95 }
          temp := 3542
          cp_time := { user := 7, nice := 0, sys := 0, idle := 93 }
          mixer := { open_result := 3, ioctl_result := 0, vol := 0 }
          tm := { tm_min := 5, tm_hour := 9, tm_mday := 3, tm_mon := 0, tm_year := 124 } }
        = Except.ok r ∧
      r.msgs = ["ON BATTERY", "High temperature"] ∧
      r.state.bat_prev_state = 1 ∧ r.state.prev_temp = 81 ∧
      r.state.cpu.prev_total = 100 ∧ r.state.cpu.prev_idle = 93 :=
  match C16_previous_state_overwritten State.init
        { bat := { state := 1, life := 42, time := 95 }
          temp := 3542
          cp_time := { user := 7, nice := 0, sys := 0, idle := 93 }
          mixer := { open_result := 3, ioctl_result := 0, vol := 0 }
          tm := { tm_min := 5, tm_hour := 9, tm_mday := 3, tm_mon := 0, tm_year := 124 } }
        { state := { prev_total := 100, prev_idle := 93 }, diff_usage := 7
          text := "^i(/usr/home/jlaffaye/.dzen/load.xbm) 07%" }
        { fd := 3, vol := 0, text := "^i(/usr/home/jlaffaye/.dzen/vol-mute.xbm) 0%" }
        (by decide) (by decide) with
  | ⟨r, hr, hm, h1, h2, _, h3, h4, _⟩ =>
    ⟨r, hr, hm.trans (by decide), h1, h2.trans (by decide), h3.trans (by decide),
      h4.trans (by decide)⟩

/-- C17: the line of a pass is a function of the current battery state and
    reported life, Celsius temperature, CPU usage, masked volume and local
    time: two passes that agree on these write the same line, whatever the
    stored previous battery state and previous temperature (and every other
    stored value) of each; the texts of `print_bat` and `print_temp` do not
    depend on the previous value, while their messages do. -/
theorem C17_line_depends_on_inputs (st1 st2 : State) (s1 s2 : Sample)
    (c1 c2 : CpuResult) (v1 v2 : VolResult)
    (hc1 : print_cpu_usage st1.cpu s1.cp_time = Except.ok c1)
    (hc2 : print_cpu_usage st2.cpu s2.cp_time = Except.ok c2)
    (hv1 : print_volume st1.mixer_fd s1.mixer = Except.ok v1)
    (hv2 : print_volume st2.mixer_fd s2.mixer = Except.ok v2)
    (hstate : s1.bat.state = s2.bat.state)
    (hlife : (print_bat st1.bat_prev_state s1.bat).life
      = (print_bat st2.bat_prev_state s2.bat).life)
    (htemp : TZ_KELVTOC s1.temp = TZ_KELVTOC s2.temp)
    (husage : c1.diff_usage = c2.diff_usage)
    (hvol : v1.vol = v2.vol)
    (htm : s1.tm = s2.tm) :
    (∃ r1 r2, cycle st1 s1 = Except.ok r1 ∧ cycle st2 s2 = Except.ok r2 ∧ r1.line = r2.line) ∧
    (∀ (p1 p2 : Int) (b : BatReading), (print_bat p1 b).text = (print_bat p2 b).text) ∧
    (∀ p1 p2 raw : Int, (print_temp p1 raw).text = (print_temp p2 raw).text) ∧
    (print_bat 0 { state := 1, life := 50, time := 0 }).msgs
      ≠ (print_bat 1 { state := 1, life := 50, time := 0 }).msgs ∧
    (print_temp 0 3542).msgs ≠ (print_temp 90 3542).msgs := by
  refine ⟨⟨_, _, cycle_of_ok st1 s1 c1 v1 hc1 hv1, cycle_of_ok st2 s2 c2 v2 hc2 hv2, ?_⟩,
    fun _ _ _ => rfl, fun _ _ _ => rfl, by decide, by decide⟩
  show (print_bat st1.bat_prev_state s1.bat).text ++ print_dot
      ++ (print_temp st1.prev_temp s1.temp).text ++ print_dot ++ c1.text ++ print_dot
      ++ v1.text ++ print_dot ++ print_date s1.tm ++ "\n"
    = (print_bat st2.bat_prev_state s2.bat).text ++ print_dot
      ++ (print_temp st2.prev_temp s2.temp).text ++ print_dot ++ c2.text ++ print_dot
      ++ v2.text ++ print_dot ++ print_date s2.tm ++ "\n"
  rw [print_bat_text, print_bat_text, print_temp_text, print_temp_text,
    (print_cpu_usage_ok_inv _ _ _ hc1).2, (print_cpu_usage_ok_inv _ _ _ hc2).2,
    print_volume_text _ _ _ hv1, print_volume_text _ _ _ hv2,
    hstate, hlife, htemp, husage, hvol, htm]

/-- C17 at two first passes that differ in the stored previous battery
    state and temperature only. -/
theorem C17_line_depends_on_inputs_witness :
    ∃ r1 r2,
      cycle { bat_prev_state := 0, prev_temp := 0, cpu := CpuState.init, mixer_fd := 0 }
        { bat := { state := 1, life := 42, time := 95 }
          temp := 3542
          cp_time := { user := 7, nice := 0, sys := 0, idle := 93 }
          mixer := { open_result := 3, ioctl_result := 0, vol := 0 }
          tm := { tm_min := 5, tm_hour := 9, tm_mday := 3, tm_mon := 0, tm_year := 124 } }
        = Except.ok r1 ∧
      cycle { bat_prev_state := 1, prev_temp := 90, cpu := CpuState.init, mixer_fd := 0 }
        { bat := { state := 1, life := 42, time := 95 }
          temp := 3542
          cp_time := { user := 7, nice := 0, sys := 0, idle := 93 }
          mixer := { open_result := 3, ioctl_result := 0, vol := 0 }
          tm := { tm_min := 5, tm_hour := 9, tm_mday := 3, tm_mon := 0, tm_year := 124 } }
        = Except.ok r2 ∧
      r1.line = r2.line :=
  (C17_line_depends_on_inputs
    { bat_prev_state := 0, prev_temp := 0, cpu := CpuState.init, mixer_fd := 0 }
    { bat_prev_state := 1, prev_temp := 90, cpu := CpuState.init, mixer_fd := 0 }
    { bat := { state := 1, life := 42, time := 95 }
      temp := 3542
      cp_time := { user := 7, nice := 0, sys := 0, idle := 93 }
      mixer := { open_result := 3, ioctl_result := 0, vol := 0 }
      tm := { tm_min := 5, tm_hour := 9, tm_mday := 3, tm_mon := 0, tm_year := 124 } }
    { bat := { state := 1, life := 42, time := 95 }
      temp := 3542
      cp_time := { user := 7, nice := 0, sys := 0, idle := 93 }
      mixer := { open_result := 3, ioctl_result := 0, vol := 0 }
      tm := { tm_min := 5, tm_hour := 9, tm_mday := 3, tm_mon := 0, tm_year := 124 } }
    { state := { prev_total := 100, prev_idle := 93 }, diff_usage := 7
      text := "^i(/usr/home/jlaffaye/.dzen/load.xbm) 07%" }
    { state := { prev_total := 100, prev_idle := 93 }, diff_usage := 7
      text := "^i(/usr/home/jlaffaye/.dzen/load.xbm) 07%" }
    { fd := 3, vol := 0, text := "^i(/usr/home/jlaffaye/.dzen/vol-mute.xbm) 0%" }
    { fd := 3, vol := 0, text := "^i(/usr/home/jlaffaye/.dzen/vol-mute.xbm) 0%" }
    (by decide) (by decide) (by decide) (by decide) rfl rfl rfl rfl rfl rfl).1

/-! ## Overflow, the raw threshold and unknown battery states -/

/-- C18: with 32-bit wrap-around there are consecutive CPU samples with
    non-negative, non-decreasing ticks and `diff_total > 0` for which
    `1000 * (diff_total - diff_idle)` exceeds `INT_MAX` and the usage that
    `print_cpu_usage` yields is outside [0,100]: on the first pass (previous
    ticks all zero) the sample {3000000, 0, 0, 1000000} yields -31, printed
    "-31%". -/
theorem C18_overflow_usage_out_of_range :
    (∃ prev cur : CpTime,
      (0 ≤ prev.user ∧ prev.user ≤ cur.user) ∧ (0 ≤ prev.nice ∧ prev.nice ≤ cur.nice) ∧
      (0 ≤ prev.sys ∧ prev.sys ≤ cur.sys) ∧ (0 ≤ prev.idle ∧ prev.idle ≤ cur.idle) ∧
      0 < diff_total (cpuStateOf prev) cur ∧
      INT_MAX < 1000 * (diff_total (cpuStateOf prev) cur - diff_idle (cpuStateOf prev) cur) ∧
      ∃ r, print_cpu_usage (cpuStateOf prev) cur = Except.ok r ∧
        (r.diff_usage < 0 ∨ 100 < r.diff_usage)) ∧
    cpuStateOf { user := 0, nice := 0, sys := 0, idle := 0 } = CpuState.init ∧
    diff_total CpuState.init { user := 3000000, nice := 0, sys := 0, idle := 1000000 }
      = 4000000 ∧
    diff_idle CpuState.init { user := 3000000, nice := 0, sys := 0, idle := 1000000 }
      = 1000000 ∧
    wrapInt (1000 * 3000000) = -1294967296 ∧
    print_cpu_usage CpuState.init { user := 3000000, nice := 0, sys := 0, idle := 1000000 }
      = Except.ok
        { state := { prev_total := 4000000, prev_idle := 1000000 }
          diff_usage := -31
          text := "^i(/usr/home/jlaffaye/.dzen/load.xbm) -31%" } := by
  refine ⟨⟨{ user := 0, nice := 0, sys := 0, idle := 0 },
    { user := 3000000, nice := 0, sys := 0, idle := 1000000 },
    by decide, by decide, by decide, by decide, by decide, by decide,
    { state := { prev_total := 4000000, prev_idle := 1000000 }
      diff_usage := -31
      text := "^i(/usr/home/jlaffaye/.dzen/load.xbm) -31%" }, by decide, Or.inl (by decide)⟩,
    by decide, by decide, by decide, by decide, by decide⟩

/-- For a non-negative raw reading the Celsius value reaches 80 exactly
    from the raw value 3532 on. -/
theorem kelvtoc_ge_80_iff (x : Int) (h0 : 0 ≤ x) (h1 : x ≤ INT_MAX) :
    TZ_KELVTOC x ≥ 80 ↔ x ≥ 3532 := by
  unfold INT_MAX at h1
  unfold TZ_KELVTOC TZ_ZEROC
  rw [wrapInt_of_bounds (by omega) (by omega)]
  by_cases hx : 2732 ≤ x
  · rw [Int.tdiv_eq_ediv (by omega) (by decide)]
    omega
  · have hneg : Int.tdiv (x - 2732) 10 ≤ 0 := by
      have e : x - 2732 = -(2732 - x) := by omega
      rw [e, Int.neg_tdiv]
      have := Int.tdiv_nonneg (show (0 : Int) ≤ 2732 - x by omega) (show (0 : Int) ≤ 10 by decide)
      omega
    constructor
    · intro h
      omega
    · intro h
      omega

/-- C19: in a run of `print_temp` calls on raw readings that are
    non-negative `int`s, "High temperature" is shown in pass `i` if and only
    if the raw reading of pass `i` is at least 3532 and the raw reading of
    pass `i - 1` is below 3532 (on the first pass the previous reading counts
    as 0, which is below); readings with the same quotient give the same
    call result, so the remainder of the division shows neither in the text
    nor in the messages. -/
theorem C19_raw_threshold (raws : List Int) (hr : ∀ x ∈ raws, 0 ≤ x ∧ x ≤ INT_MAX)
    (i : Nat) (h : i < raws.length) :
    (∃ o, (run_temp 0 raws)[i]? = some o ∧
      ("High temperature" ∈ o.msgs ↔ raws[i] ≥ 3532 ∧ value_before 0 raws i < 3532)) ∧
    (∀ p raw1 raw2 : Int, TZ_KELVTOC raw1 = TZ_KELVTOC raw2 →
      print_temp p raw1 = print_temp p raw2) ∧
    (print_temp 0 3532 = print_temp 0 3539 ∧ TZ_KELVTOC_frac 3532 ≠ TZ_KELVTOC_frac 3539) := by
  refine ⟨⟨_, run_temp_getElem? 0 raws i h, ?_⟩, ?_, by decide, by decide⟩
  · rw [high_temp_mem_iff]
    have hi := hr raws[i] (List.getElem_mem h)
    have e1 := kelvtoc_ge_80_iff raws[i] hi.1 hi.2
    have e2 : value_before 0 (raws.map TZ_KELVTOC) i < 80 ↔ value_before 0 raws i < 3532 := by
      cases i with
      | zero =>
        show (0 : Int) < 80 ↔ (0 : Int) < 3532
        decide
      | succ j =>
        have hj : j < raws.length := by omega
        have hjm : j < (raws.map TZ_KELVTOC).length := by
          rw [List.length_map]
          exact hj
        have hmem := hr raws[j] (List.getElem_mem hj)
        have e3 := kelvtoc_ge_80_iff raws[j] hmem.1 hmem.2
        show (raws.map TZ_KELVTOC).getD j 0 < 80 ↔ raws.getD j 0 < 3532
        rw [List.getD_eq_getElem _ _ hjm, List.getD_eq_getElem _ _ hj, List.getElem_map]
        constructor
        · intro hlt
          by_contra hge
          have := e3.2 (by omega)
          omega
        · intro hlt
          by_contra hge
          have := e3.1 (by omega)
          omega
    rw [e2]
    constructor
    · intro hh
      exact ⟨e1.1 hh.1, hh.2⟩
    · intro hh
      exact ⟨e1.2 hh.1, hh.2⟩
  · intro p raw1 raw2 hq
    unfold print_temp
    rw [hq]

/-- C19 on the raw readings 3531, 3532, 3539: shown in pass 1 only. -/
theorem C19_raw_threshold_witness :
    (∃ o, (run_temp 0 [3531, 3532, 3539])[1]? = some o ∧ "High temperature" ∈ o.msgs) ∧
    (∃ o, (run_temp 0 [3531, 3532, 3539])[2]? = some o ∧ "High temperature" ∉ o.msgs) :=
  ⟨match (C19_raw_threshold [3531, 3532, 3539] (by decide) 1 (by decide)).1 with
    | ⟨o, ho, hiff⟩ => ⟨o, ho, hiff.2 (by decide)⟩,
   match (C19_raw_threshold [3531, 3532, 3539] (by decide) 2 (by decide)).1 with
    | ⟨o, ho, hiff⟩ => ⟨o, ho, fun hm => absurd (hiff.1 hm).2 (by decide)⟩⟩

theorem print_bat_msgs (p : Int) (r : BatReading) :
    (print_bat p r).msgs =
      (if r.state = STATE_DISCHARGING ∧ p ≠ STATE_DISCHARGING then ["ON BATTERY"] else [])
        ++ (if (print_bat p r).life < 10 then ["PLUG AC!"] else []) := rfl

/-- C20: for every state code other than 0 (OnAC), 1 (Discharging) and 6
    (Charging), whatever the raw life reading, the time reading and the
    previous state, `print_bat` writes exactly "[?] 100%" and shows no
    message, so neither "ON BATTERY" nor "PLUG AC!". -/
theorem C20_unknown_state (p : Int) (r : BatReading) (h0 : r.state ≠ STATE_AC)
    (h1 : r.state ≠ STATE_DISCHARGING) (h6 : r.state ≠ STATE_CHARGING) :
    (print_bat p r).text = "[?] 100%" ∧ (print_bat p r).msgs = [] ∧
    "ON BATTERY" ∉ (print_bat p r).msgs ∧ "PLUG AC!" ∉ (print_bat p r).msgs := by
  have h2 : ¬ (r.state = STATE_AC ∨ r.state = STATE_CHARGING) := fun h => h.elim h0 h6
  have h3 : ¬ (r.state = STATE_DISCHARGING ∨ r.state = STATE_CHARGING) := fun h =>
    h.elim h1 h6
  have h4 : ¬ (r.state = STATE_DISCHARGING ∧ p ≠ STATE_DISCHARGING) := fun h => h1 h.1
  have hl : (print_bat p r).life = 100 := by
    rw [print_bat_life, if_neg h3]
  have hm : (print_bat p r).msgs = [] := by
    rw [print_bat_msgs, if_neg h4, hl]
    decide
  refine ⟨?_, hm, ?_, ?_⟩
  · rw [print_bat_text, if_neg h2, if_neg h1, hl]
    decide
  · rw [hm]
    exact List.not_mem_nil _
  · rw [hm]
    exact List.not_mem_nil _

/-- C20 at the state code 2 with a raw life of 5 after a Discharging pass. -/
theorem C20_unknown_state_witness :
    (print_bat 1 { state := 2, life := 5, time := 0 }).text = "[?] 100%" ∧
    (print_bat 1 { state := 2, life := 5, time := 0 }).msgs = [] :=
  match C20_unknown_state 1 { state := 2, life := 5, time := 0 } (by decide) (by decide)
      (by decide) with
  | ⟨ht, hm, _, _⟩ => ⟨ht, hm⟩

end JStatus
